import Mathlib

/-!
Shallow embedding of the MCP word-commander server (src/server.py): a set of
stateless tools over an OOXML word-processing document, each one a
load-mutate-save cycle on a single file.  The document object model follows
python-docx: a document body is an ordered list of block-level nodes
(paragraphs and tables); a paragraph is a list of runs; a run carries one
formatting set and may contain drawing elements referencing image parts.
File-system state is a `Disk` (`Option Doc`, `none` = file missing); library
failures that the Python code can only observe as exceptions (opening a
corrupt package, a failing save) are an `Env` oracle, and each tool is its
body in the exception monad wrapped by the `except Exception` boundary.
-/

/-! ## Python string primitives used by search_and_replace -/

/-- Case key applied before comparing characters: the identity for
`match_case=True` (plain `in` / `str.replace`), `Char.toLower` modelling
`re.IGNORECASE` for `match_case=False`. -/
def keyOf (matchCase : Bool) (c : Char) : Char :=
  if matchCase then c else c.toLower

/-- Python substring test `pat in s`, comparing characters through the case
key `k`.  The empty pattern is contained in every string. -/
def containsK (k : Char → Char) (pat : List Char) : List Char → Bool
  | [] => pat.isEmpty
  | c :: cs => (pat.map k).isPrefixOf ((c :: cs).map k) || containsK k pat cs

/-- Leftmost, non-overlapping replacement of a non-empty pattern, as both
Python `str.replace` and `re.sub` on an escaped pattern behave: scan left to
right, on a match emit the replacement verbatim and skip the matched span,
otherwise copy one character.  Each step consumes at least one character, so
structural recursion on a fuel of `length + 1` realizes the scan exactly. -/
def replaceKAux (k : Char → Char) (pat rep : List Char) : Nat → List Char → List Char
  | 0, s => s
  | _+1, [] => []
  | fuel+1, c :: cs =>
    if (pat.map k).isPrefixOf ((c :: cs).map k) then
      rep ++ replaceKAux k pat rep fuel (List.drop (pat.length - 1) cs)
    else
      c :: replaceKAux k pat rep fuel cs

/-- The scan at sufficient fuel. -/
def replaceK (k : Char → Char) (pat rep s : List Char) : List Char :=
  replaceKAux k pat rep (s.length + 1) s

/-- Python replacement including the empty-pattern case (`str.replace` with
an empty pattern inserts the replacement before every character and at the
end). -/
def pyReplace (k : Char → Char) (pat rep : List Char) (s : List Char) : List Char :=
  if pat.isEmpty then rep ++ s.flatMap (fun c => c :: rep)
  else replaceK k pat rep s

/-- Python `str.count`: number of non-overlapping occurrences, scanning left
to right (the empty pattern counts `length + 1` times, as in Python); the
same fuel pattern as `replaceKAux`. -/
def countOccAux (pat : List Char) : Nat → List Char → Nat
  | 0, _ => 0
  | _+1, [] => if pat.isEmpty then 1 else 0
  | fuel+1, c :: cs =>
    if pat.isPrefixOf (c :: cs) then
      1 + countOccAux pat fuel (List.drop (pat.length - 1) cs)
    else
      countOccAux pat fuel cs

/-- The count at sufficient fuel. -/
def countOcc (pat s : List Char) : Nat :=
  countOccAux pat (s.length + 1) s

/-- Python `str.strip()`: drop leading and trailing whitespace. -/
def stripList (l : List Char) : List Char :=
  ((l.dropWhile Char.isWhitespace).reverse.dropWhile Char.isWhitespace).reverse

/-- Python `str.strip()` on strings. -/
def pyStrip (s : String) : String := String.mk (stripList s.data)

/-- Python `str.upper()` (ASCII, which is all the server compares). -/
def pyUpper (s : String) : String := String.mk (s.data.map Char.toUpper)

/-- `search_text in run.text` (or its `re.IGNORECASE` analogue). -/
def strContains (matchCase : Bool) (pat s : String) : Bool :=
  containsK (keyOf matchCase) pat.data s.data

/-- `run.text.replace(search, rep)` (or its `re.IGNORECASE` analogue). -/
def strReplace (matchCase : Bool) (pat rep s : String) : String :=
  String.mk (pyReplace (keyOf matchCase) pat.data rep.data s.data)

/-- Number of occurrences of `pat` in `s`, Python `str.count` semantics. -/
def strCount (pat s : String) : Nat :=
  countOcc pat.data s.data

/-! ## The document object model -/

/-- Paragraph alignment values used by the server (WD_ALIGN_PARAGRAPH). -/
inductive WDAlign
  | LEFT
  | CENTER
  | RIGHT
  | JUSTIFY
deriving DecidableEq, Repr

/-- Run-level formatting: `none` means the property is not set explicitly on
the run (inherited). -/
structure RunFmt where
  bold : Option Bool := none
  italic : Option Bool := none
  font_name : Option String := none
  font_size : Option ℚ := none
  east_asia : Option String := none
deriving DecidableEq, Repr

/-- A blip inside a drawing; `embed` is the relationship id attribute
(`r:embed`) when present. -/
structure Blip where
  embed : Option String
deriving DecidableEq, Repr

/-- A `w:drawing` element inside a run: its blips and its `wp:extent`
(cx, cy in EMU) when present. -/
structure Drawing where
  blips : List Blip
  extent : Option (Int × Int)
deriving DecidableEq, Repr

/-- A run: a contiguous span of text with one formatting set; it may also
hold drawing elements. -/
structure Run where
  text : String
  fmt : RunFmt := {}
  drawings : List Drawing := []
deriving DecidableEq, Repr

/-- A paragraph: ordered runs plus paragraph-level format and a style. -/
structure Para where
  runs : List Run := []
  alignment : Option WDAlign := none
  style_name : String := "Normal"
  first_line_indent : Option ℚ := none
  line_spacing : Option ℚ := none
deriving DecidableEq, Repr

/-- `paragraph.text`: concatenation of the run texts. -/
def Para.text (p : Para) : String :=
  String.join (p.runs.map (fun r => r.text))

/-- A table cell holds one or more paragraphs. -/
structure TableCell where
  paragraphs : List Para
deriving DecidableEq, Repr

/-- Python `"\n".join`. -/
def joinTexts (sep : String) : List String → String
  | [] => ""
  | [t] => t
  | t :: rest => t ++ sep ++ joinTexts sep rest

/-- `cell.text`: the cell paragraphs' texts joined with newlines. -/
def TableCell.text (c : TableCell) : String :=
  joinTexts "\n" (c.paragraphs.map Para.text)

/-- A table: rows of cells, the declared column count (`len(table.columns)`,
from `tblGrid`), and the visual style name. -/
structure Table where
  rows : List (List TableCell)
  grid_cols : Nat
  style : String := "Table Grid"
deriving DecidableEq, Repr

/-- A block-level node of the document body. -/
inductive Block
  | para (p : Para)
  | table (t : Table)
deriving DecidableEq, Repr

/-- An image part of the package, reachable through the relationship table. -/
structure ImagePart where
  partname : String
  content_type : String
  blob_size : Nat
  has_blob : Bool := true
deriving DecidableEq, Repr, Inhabited

/-- The document: ordered body blocks plus the relationship table mapping
relationship ids to image parts. -/
structure Doc where
  blocks : List Block
  related_parts : List (String × ImagePart) := []
deriving DecidableEq, Repr

/-- `doc.paragraphs`: the body-level paragraphs in order (table-cell
paragraphs are not included, as in python-docx). -/
def Doc.paragraphs (d : Doc) : List Para :=
  d.blocks.filterMap (fun b => match b with
    | .para p => some p
    | .table _ => none)

/-- `doc.tables`: the body-level tables in order. -/
def Doc.tables (d : Doc) : List Table :=
  d.blocks.filterMap (fun b => match b with
    | .para _ => none
    | .table t => some t)

/-- `Document()`: the python-docx bundled default template has an empty body
(no paragraphs, no tables) and no image relationships. -/
def newDocument : Doc := { blocks := [], related_parts := [] }

/-! ## Tool boundary: file system, library-failure oracle, structured results -/

/-- The on-disk state of the one document file a tool call touches:
`none` means the file does not exist. -/
abbrev Disk := Option Doc

/-- Oracle for failures the Python code can only observe as exceptions from
the underlying library: `open_err` makes `Document(path)` raise, `save_err`
makes `doc.save(path)` raise, `style_ok` says which table style names the
package knows (assigning an unknown one raises). -/
structure Env where
  open_err : Option String := none
  save_err : Option String := none
  style_ok : String → Bool := fun _ => true

/-- The structured result a tool hands back to the transport: a success
message, an error message, or a batch of image payloads (read_images). The
`disk` component is the on-disk state after the call. -/
inductive Res
  | ok (message : String) (disk : Disk)
  | err (message : String) (disk : Disk)
  | imgs (count : Nat) (disk : Disk)
deriving DecidableEq, Repr

/-- The disk state recorded in a result. -/
def Res.disk : Res → Disk
  | .ok _ d => d
  | .err _ d => d
  | .imgs _ d => d

/-- True on the success constructor only. -/
def Res.isOk : Res → Bool
  | .ok _ _ => true
  | _ => false

/-- The `except Exception as e` boundary every tool body is wrapped in:
a raised exception becomes a structured error result (rendered by `fmt`,
which is the identity for the JSON tools and a prefix for the plain-string
tools), and the on-disk file is left as it was. -/
def catchAll (fmt : String → String) (disk : Disk) : Except String Res → Res
  | .ok r => r
  | .error e => .err (fmt e) disk

/-- Opening phase shared by the tools: missing file yields the tool's
not-found error result; an opening failure from the library raises. -/
def requireDoc (msg : String) (disk : Disk) (env : Env)
    (k : Doc → Except String Res) : Except String Res :=
  match disk with
  | none => pure (Res.err msg none)
  | some d =>
    match env.open_err with
    | some m => throw m
    | none => k d

/-- `doc.save(abs_path)` followed by the tool's success return. -/
def saveThen (env : Env) (d : Doc) (okmsg : String) : Except String Res :=
  match env.save_err with
  | some m => throw m
  | none => pure (Res.ok okmsg (some d))

/-! ## List surgery helpers (splices the XML-level edits perform) -/

/-- Replace the element at position `n` (out-of-range: no change). -/
def modifyNth {α : Type} : List α → Nat → (α → α) → List α
  | [], _, _ => []
  | x :: xs, 0, f => f x :: xs
  | x :: xs, n+1, f => x :: modifyNth xs n f

/-- Remove the element at position `n` (out-of-range: no change). -/
def removeNth {α : Type} : List α → Nat → List α
  | [], _ => []
  | _ :: xs, 0 => xs
  | x :: xs, n+1 => x :: removeNth xs n

/-- Insert `a` so that it ends up at position `n` (past the end: append). -/
def insertAt {α : Type} : Nat → α → List α → List α
  | 0, a, l => a :: l
  | _+1, a, [] => [a]
  | n+1, a, x :: xs => x :: insertAt n a xs

/-- Apply `f` to the `n`-th paragraph block of the body (counting only
paragraph blocks, the index space of `doc.paragraphs`). -/
def modifyNthPara : List Block → Nat → (Para → Para) → List Block
  | [], _, _ => []
  | .para p :: rest, 0, f => .para (f p) :: rest
  | .para p :: rest, n+1, f => .para p :: modifyNthPara rest n f
  | .table t :: rest, n, f => .table t :: modifyNthPara rest n f

/-- Splice a new block immediately after the `n`-th paragraph block
(`target_para._element.addnext(...)`). -/
def insertBlockAfterNthPara : List Block → Nat → Block → List Block
  | [], _, _ => []
  | .para p :: rest, 0, b => .para p :: b :: rest
  | .para p :: rest, n+1, b => .para p :: insertBlockAfterNthPara rest n b
  | .table t :: rest, n, b => .table t :: insertBlockAfterNthPara rest n b

/-- Apply `f` to the `n`-th table block of the body. -/
def modifyNthTable : List Block → Nat → (Table → Table) → List Block
  | [], _, _ => []
  | .table t :: rest, 0, f => .table (f t) :: rest
  | .table t :: rest, n+1, f => .table t :: modifyNthTable rest n f
  | .para p :: rest, n, f => .para p :: modifyNthTable rest n f

/-- Remove the `n`-th table block of the body
(`tbl.getparent().remove(tbl)`). -/
def removeNthTable : List Block → Nat → List Block
  | [], _ => []
  | .table _ :: rest, 0 => rest
  | .table t :: rest, n+1 => .table t :: removeNthTable rest n
  | .para p :: rest, n => .para p :: removeNthTable rest n

/-! ## Error message builders shared by the tools -/

/-- "Invalid paragraph index: i. Document has n paragraphs." -/
def invalidParaMsg (i : Int) (n : Nat) : String :=
  "Invalid paragraph index: " ++ toString i ++ ". Document has " ++ toString n ++ " paragraphs."

/-- "Invalid table index: i. Document has n tables." -/
def invalidTableMsg (i : Int) (n : Nat) : String :=
  "Invalid table index: " ++ toString i ++ ". Document has " ++ toString n ++ " tables."

/-- "Invalid row index: i. Table has n rows." -/
def invalidRowMsg (i : Int) (n : Nat) : String :=
  "Invalid row index: " ++ toString i ++ ". Table has " ++ toString n ++ " rows."

/-- "Invalid column index: i. Table has n columns." -/
def invalidColMsg (i : Int) (n : Nat) : String :=
  "Invalid column index: " ++ toString i ++ ". Table has " ++ toString n ++ " columns."

/-- "Invalid position: p. Table has n rows." -/
def invalidPositionMsg (p : Int) (n : Nat) : String :=
  "Invalid position: " ++ toString p ++ ". Table has " ++ toString n ++ " rows."

/-- "Invalid image index: i. Document has n images (0-(n-1))." -/
def invalidImageMsg (i : Int) (n : Nat) : String :=
  "Invalid image index: " ++ toString i ++ ". Document has " ++ toString n
    ++ " images (0-" ++ toString ((n : Int) - 1) ++ ")."

/-- "File not found: path" -/
def fileNotFoundMsg (path : String) : String := "File not found: " ++ path

/-! ## Alignment maps and paragraph formatting -/

/-- The `align_map.get(alignment.upper(), WD_ALIGN_PARAGRAPH.LEFT)` lookup of
`_apply_paragraph_format`: four recognized names, anything else LEFT. -/
def alignMapPara (a : String) : WDAlign :=
  if pyUpper a = "LEFT" then .LEFT
  else if pyUpper a = "CENTER" then .CENTER
  else if pyUpper a = "RIGHT" then .RIGHT
  else if pyUpper a = "JUSTIFY" then .JUSTIFY
  else .LEFT

/-- The three-entry `align_map.get(alignment.upper(), WD_ALIGN_PARAGRAPH.CENTER)`
lookup of `add_image` and `insert_image_after_paragraph`. -/
def alignMapImage (a : String) : WDAlign :=
  if pyUpper a = "LEFT" then .LEFT
  else if pyUpper a = "CENTER" then .CENTER
  else if pyUpper a = "RIGHT" then .RIGHT
  else .CENTER

/-- The run built by `paragraph.add_run(text)` then formatted by
`_apply_paragraph_format`: bold, size, font name, and the parallel
`w:eastAsia` font attribute. -/
def fmtRun (text font_name : String) (font_size : ℚ) (is_bold : Bool) : Run :=
  { text := text
  , fmt := { bold := some is_bold
           , italic := none
           , font_name := some font_name
           , font_size := some font_size
           , east_asia := some font_name }
  , drawings := [] }

/-- `_apply_paragraph_format` on a paragraph `base` whose single (new) run is
the formatted one: alignment always assigned through the map; first-line
indent assigned only when the character multiplier is positive (as
`font_size * indent_first_line` points); fixed line spacing assigned only
when truthy (Python skips both `None` and `0.0`). -/
def applyParagraphFormat (base : Para) (text font_name : String) (font_size : ℚ)
    (is_bold : Bool) (alignment : String) (indent_first_line : ℚ)
    (line_spacing : Option ℚ) : Para :=
  { base with
    runs := [fmtRun text font_name font_size is_bold]
  , alignment := some (alignMapPara alignment)
  , first_line_indent :=
      if 0 < indent_first_line then some (font_size * indent_first_line)
      else base.first_line_indent
  , line_spacing :=
      match line_spacing with
      | some v => if v = 0 then base.line_spacing else some v
      | none => base.line_spacing }

/-- A paragraph as freshly created (`doc.add_paragraph()` / `OxmlElement('w:p')`). -/
def freshPara : Para := {}

/-! ## Document lifecycle and read tools -/

/-- `create_new_document`: `Document()` produces the empty default package;
saving can raise (e.g. the parent directory does not exist), which the
boundary renders with the "Error creating document: " prefix. -/
def create_new_document_body (path : String) (env : Env) : Except String Res :=
  match env.save_err with
  | some m => throw m
  | none =>
    pure (Res.ok ("Successfully created new document at " ++ path) (some newDocument))

/-- `create_new_document` tool: its body behind the exception boundary. -/
def create_new_document (path : String) (disk : Disk) (env : Env) : Res :=
  catchAll (fun e => "Error creating document: " ++ e) disk
    (create_new_document_body path env)

/-- The 50-character preview of a paragraph used by `get_document_info`. -/
def previewOf (t : String) : String :=
  if 50 < (pyStrip t).data.length then String.mk ((pyStrip t).data.take 50) ++ "..."
  else pyStrip t

/-- The overview `get_document_info` serializes. -/
structure DocInfo where
  total_paragraphs : Nat
  non_empty_paragraphs : Nat
  total_tables : Nat
  previews : List (Nat × String × String)
deriving DecidableEq, Repr

/-- `get_document_info` body: paragraph/table counts and a preview with the
style name for each paragraph whose stripped preview is non-empty. -/
def get_document_info_core (d : Doc) : DocInfo :=
  let ps := d.paragraphs
  let entries := ps.enum.filterMap (fun pr =>
    let pv := previewOf pr.2.text
    if pv = "" then none else some (pr.1, pv, pr.2.style_name))
  { total_paragraphs := ps.length
  , non_empty_paragraphs := entries.length
  , total_tables := d.tables.length
  , previews := entries }

/-- Render of the overview into the returned JSON string (counts only; the
claims inspect the structured core). -/
def renderInfo (i : DocInfo) : String :=
  "total_paragraphs=" ++ toString i.total_paragraphs
    ++ " non_empty_paragraphs=" ++ toString i.non_empty_paragraphs
    ++ " total_tables=" ++ toString i.total_tables

/-- Body of `get_document_info` inside the try block. -/
def get_document_info_body (path : String) (disk : Disk) (env : Env) :
    Except String Res :=
  requireDoc (fileNotFoundMsg path) disk env (fun d =>
    pure (Res.ok (renderInfo (get_document_info_core d)) disk))

/-- `get_document_info` tool. -/
def get_document_info (path : String) (disk : Disk) (env : Env) : Res :=
  catchAll id disk (get_document_info_body path disk env)

/-- One entry of the page `read_document_structure` returns. -/
structure RDSEntry where
  idx : Nat
  text : String
  style_name : String
deriving DecidableEq, Repr

/-- The `for i, para in enumerate(doc.paragraphs)` loop of
`read_document_structure`: skip below `start_index`, skip blank paragraphs
unless `include_empty`, stop once `count` reaches `limit`.  Returns the
collected entries and the final `count`. -/
def rdsLoop (ps : List Para) (i : Nat) (start_index limit : Int)
    (include_empty : Bool) (count : Nat) : List RDSEntry × Nat :=
  match ps with
  | [] => ([], count)
  | p :: rest =>
    if (i : Int) < start_index then
      rdsLoop rest (i+1) start_index limit include_empty count
    else if include_empty = false ∧ pyStrip p.text = "" then
      rdsLoop rest (i+1) start_index limit include_empty count
    else if limit ≤ (count : Int) then
      ([], count)
    else
      let r := rdsLoop rest (i+1) start_index limit include_empty (count+1)
      (⟨i, p.text, p.style_name⟩ :: r.1, r.2)

/-- The result object `read_document_structure` serializes. -/
structure RDSResult where
  total_paragraphs : Nat
  returned_count : Nat
  start_index : Int
  has_more : Bool
  paragraphs : List RDSEntry
deriving DecidableEq, Repr

/-- `read_document_structure` body: run the page loop, then
`has_more = (start_index + count) < total`. -/
def read_document_structure_core (d : Doc) (start_index limit : Int)
    (include_empty : Bool) : RDSResult :=
  let ps := d.paragraphs
  let r := rdsLoop ps 0 start_index limit include_empty 0
  { total_paragraphs := ps.length
  , returned_count := r.1.length
  , start_index := start_index
  , has_more := decide (start_index + (r.2 : Int) < (ps.length : Int))
  , paragraphs := r.1 }

/-- Body of `read_document_structure` inside the try block. -/
def read_document_structure_body (path : String) (disk : Disk)
    (start_index limit : Int) (include_empty : Bool) (env : Env) :
    Except String Res :=
  requireDoc (fileNotFoundMsg path) disk env (fun d =>
    let r := read_document_structure_core d start_index limit include_empty
    pure (Res.ok ("returned " ++ toString r.returned_count ++ " of "
      ++ toString r.total_paragraphs ++ " paragraphs") disk))

/-- `read_document_structure` tool (the claims inspect the structured core;
the message is its rendering). -/
def read_document_structure (path : String) (disk : Disk)
    (start_index limit : Int) (include_empty : Bool) (env : Env) : Res :=
  catchAll id disk
    (read_document_structure_body path disk start_index limit include_empty env)

/-- One table as `read_tables` reports it. -/
structure TableRead where
  table_index : Nat
  rows : Nat
  cols : Nat
  data : List (List String)
deriving DecidableEq, Repr

/-- `read_tables` body: cell text of one table (when `table_index` is given)
or of all tables, as row-major grids. -/
def read_tables_core (d : Doc) (table_index : Option Int) : List TableRead :=
  d.tables.enum.filterMap (fun pr =>
    let keep := match table_index with
      | some ti => ((pr.1 : Int) = ti : Bool)
      | none => true
    if keep then
      some { table_index := pr.1
           , rows := pr.2.rows.length
           , cols := pr.2.grid_cols
           , data := pr.2.rows.map (fun row => row.map TableCell.text) }
    else none)

/-- Body of `read_tables` inside the try block. -/
def read_tables_body (path : String) (disk : Disk) (table_index : Option Int)
    (env : Env) : Except String Res :=
  requireDoc (fileNotFoundMsg path) disk env (fun d =>
    pure (Res.ok ("tables " ++ toString (read_tables_core d table_index).length
      ++ " of " ++ toString d.tables.length) disk))

/-- `read_tables` tool. -/
def read_tables (path : String) (disk : Disk) (table_index : Option Int)
    (env : Env) : Res :=
  catchAll id disk (read_tables_body path disk table_index env)

/-! ## Paragraph mutation tools -/

/-- Body of `add_formatted_paragraph` inside the try block. -/
def add_formatted_paragraph_body (path : String) (disk : Disk)
    (text font_name : String) (font_size : ℚ) (is_bold : Bool) (alignment : String)
    (indent_first_line : ℚ) (line_spacing : Option ℚ) (env : Env) :
    Except String Res :=
  requireDoc (fileNotFoundMsg path) disk env (fun d =>
    let p := applyParagraphFormat freshPara text font_name font_size is_bold
      alignment indent_first_line line_spacing
    saveThen env { d with blocks := d.blocks ++ [.para p] }
      "Successfully added formatted paragraph.")

/-- `add_formatted_paragraph`: append a paragraph whose text is one formatted
run. -/
def add_formatted_paragraph (path : String) (disk : Disk) (text font_name : String)
    (font_size : ℚ) (is_bold : Bool) (alignment : String) (indent_first_line : ℚ)
    (line_spacing : Option ℚ) (env : Env) : Res :=
  catchAll id disk
    (add_formatted_paragraph_body path disk text font_name font_size is_bold
      alignment indent_first_line line_spacing env)

/-- `replace_paragraph`: bounds-check the index, clear the target paragraph
(removing its runs, keeping its paragraph node), then add one formatted run. -/
def replace_paragraph_body (path : String) (disk : Disk) (paragraph_index : Int)
    (new_text font_name : String) (font_size : ℚ) (is_bold : Bool)
    (alignment : String) (indent_first_line : ℚ) (line_spacing : Option ℚ)
    (env : Env) : Except String Res :=
  requireDoc (fileNotFoundMsg path) disk env (fun d =>
    if paragraph_index < 0 ∨ (d.paragraphs.length : Int) ≤ paragraph_index then
      pure (Res.err (invalidParaMsg paragraph_index d.paragraphs.length) disk)
    else
      let blocks := modifyNthPara d.blocks paragraph_index.toNat (fun p =>
        applyParagraphFormat { p with runs := [] } new_text font_name font_size
          is_bold alignment indent_first_line line_spacing)
      saveThen env { d with blocks := blocks }
        ("Successfully replaced paragraph at index " ++ toString paragraph_index ++ "."))

/-- `replace_paragraph` tool. -/
def replace_paragraph (path : String) (disk : Disk) (paragraph_index : Int)
    (new_text font_name : String) (font_size : ℚ) (is_bold : Bool)
    (alignment : String) (indent_first_line : ℚ) (line_spacing : Option ℚ)
    (env : Env) : Res :=
  catchAll id disk
    (replace_paragraph_body path disk paragraph_index new_text font_name font_size
      is_bold alignment indent_first_line line_spacing env)

/-- `insert_paragraph_after`: bounds-check the index, create a fresh `w:p`
spliced immediately after the target (`addnext`), then add one formatted run. -/
def insert_paragraph_after_body (path : String) (disk : Disk) (after_index : Int)
    (text font_name : String) (font_size : ℚ) (is_bold : Bool)
    (alignment : String) (indent_first_line : ℚ) (line_spacing : Option ℚ)
    (env : Env) : Except String Res :=
  requireDoc (fileNotFoundMsg path) disk env (fun d =>
    if after_index < 0 ∨ (d.paragraphs.length : Int) ≤ after_index then
      pure (Res.err (invalidParaMsg after_index d.paragraphs.length) disk)
    else
      let p := applyParagraphFormat freshPara text font_name font_size is_bold
        alignment indent_first_line line_spacing
      let blocks := insertBlockAfterNthPara d.blocks after_index.toNat (.para p)
      saveThen env { d with blocks := blocks }
        ("Successfully inserted paragraph after index " ++ toString after_index ++ "."))

/-- `insert_paragraph_after` tool. -/
def insert_paragraph_after (path : String) (disk : Disk) (after_index : Int)
    (text font_name : String) (font_size : ℚ) (is_bold : Bool)
    (alignment : String) (indent_first_line : ℚ) (line_spacing : Option ℚ)
    (env : Env) : Res :=
  catchAll id disk
    (insert_paragraph_after_body path disk after_index text font_name font_size
      is_bold alignment indent_first_line line_spacing env)

/-! ## search_and_replace -/

/-- Per-run step of `search_and_replace`: when the search text occurs in the
run's text (under the match-case mode), rewrite the run's text in place and
count 1 for this run; otherwise leave the run untouched.  Note the counter is
incremented once per run containing a match, while the rewrite replaces every
occurrence inside the run. -/
def sarRun (matchCase : Bool) (search rep : String) (r : Run) : Run × Nat :=
  if strContains matchCase search r.text then
    ({ r with text := strReplace matchCase search rep r.text }, 1)
  else (r, 0)

/-- `search_and_replace` over a run list. -/
def sarRuns (matchCase : Bool) (search rep : String) : List Run → List Run × Nat
  | [] => ([], 0)
  | r :: rest =>
    let a := sarRun matchCase search rep r
    let b := sarRuns matchCase search rep rest
    (a.1 :: b.1, a.2 + b.2)

/-- `search_and_replace` over one paragraph. -/
def sarPara (matchCase : Bool) (search rep : String) (p : Para) : Para × Nat :=
  let r := sarRuns matchCase search rep p.runs
  ({ p with runs := r.1 }, r.2)

/-- `search_and_replace` over a paragraph list (`for para in cell.paragraphs`). -/
def sarParas (matchCase : Bool) (search rep : String) : List Para → List Para × Nat
  | [] => ([], 0)
  | p :: rest =>
    let a := sarPara matchCase search rep p
    let b := sarParas matchCase search rep rest
    (a.1 :: b.1, a.2 + b.2)

/-- `search_and_replace` over one table cell. -/
def sarCell (matchCase : Bool) (search rep : String) (c : TableCell) : TableCell × Nat :=
  let r := sarParas matchCase search rep c.paragraphs
  (⟨r.1⟩, r.2)

/-- `search_and_replace` over one table row (`for cell in row.cells`). -/
def sarCells (matchCase : Bool) (search rep : String) :
    List TableCell → List TableCell × Nat
  | [] => ([], 0)
  | c :: rest =>
    let a := sarCell matchCase search rep c
    let b := sarCells matchCase search rep rest
    (a.1 :: b.1, a.2 + b.2)

/-- `search_and_replace` over the row list (`for row in table.rows`). -/
def sarRows (matchCase : Bool) (search rep : String) :
    List (List TableCell) → List (List TableCell) × Nat
  | [] => ([], 0)
  | row :: rest =>
    let a := sarCells matchCase search rep row
    let b := sarRows matchCase search rep rest
    (a.1 :: b.1, a.2 + b.2)

/-- `search_and_replace` over one table. -/
def sarTable (matchCase : Bool) (search rep : String) (t : Table) : Table × Nat :=
  let r := sarRows matchCase search rep t.rows
  ({ t with rows := r.1 }, r.2)

/-- `search_and_replace` over one block.  The Python code walks all body
paragraphs first and all tables second; since each run is rewritten
independently and the counts are summed, walking the blocks in body order
gives the same document and the same total. -/
def sarBlock (matchCase : Bool) (search rep : String) : Block → Block × Nat
  | .para p => let r := sarPara matchCase search rep p; (.para r.1, r.2)
  | .table t => let r := sarTable matchCase search rep t; (.table r.1, r.2)

/-- `search_and_replace` over the block list. -/
def sarBlocks (matchCase : Bool) (search rep : String) : List Block → List Block × Nat
  | [] => ([], 0)
  | b :: rest =>
    let a := sarBlock matchCase search rep b
    let r := sarBlocks matchCase search rep rest
    (a.1 :: r.1, a.2 + r.2)

/-- `search_and_replace` body: the rewritten document and the reported count. -/
def search_and_replace_core (d : Doc) (search rep : String) (matchCase : Bool) :
    Doc × Nat :=
  let r := sarBlocks matchCase search rep d.blocks
  ({ d with blocks := r.1 }, r.2)

/-- Body of `search_and_replace` inside the try block. -/
def search_and_replace_body (path : String) (disk : Disk)
    (search_text replace_text : String) (match_case : Bool) (env : Env) :
    Except String Res :=
  requireDoc (fileNotFoundMsg path) disk env (fun d =>
    let r := search_and_replace_core d search_text replace_text match_case
    saveThen env r.1
      ("Replaced " ++ toString r.2 ++ " occurrence(s) of " ++ search_text ++ "."))

/-- `search_and_replace` tool. -/
def search_and_replace (path : String) (disk : Disk) (search_text replace_text : String)
    (match_case : Bool) (env : Env) : Res :=
  catchAll id disk
    (search_and_replace_body path disk search_text replace_text match_case env)

/-! ## Table creation and mutation tools -/

/-- A cell as `doc.add_table` creates it: one empty paragraph, no runs. -/
def blankCell : TableCell := ⟨[{}]⟩

/-- The blank `rows × cols` grid `doc.add_table(rows, cols)` produces. -/
def blankGrid (rows cols : Nat) : List (List TableCell) :=
  List.replicate rows (List.replicate cols blankCell)

/-- `cell.text = s` (single paragraph, single run), then, when `bold`, the
header pass `run.bold = True` over that run. -/
def setCellText (bold : Bool) (s : String) : TableCell :=
  let f : RunFmt := if bold then { bold := some true } else {}
  ⟨[{ runs := [{ text := s, fmt := f }] }]⟩

/-- The inner `for c in range(min(cols, len(row_data)))` fill of one row:
positions beyond the input row keep their blank cell, input beyond the
requested column count is dropped. -/
def fillRow (bold : Bool) : List TableCell → List String → List TableCell
  | cells, [] => cells
  | [], _ => []
  | _ :: cs, s :: ss => setCellText bold s :: fillRow bold cs ss

/-- The outer `for r in range(min(rows, len(data)))` fill: the first row is
bolded when `header_bold`, later rows never (`r == 0 and header_bold`). -/
def fillGrid (header_bold : Bool) :
    List (List TableCell) → List (List String) → List (List TableCell)
  | g, [] => g
  | [], _ => []
  | row :: rest, rd :: ds => fillRow header_bold row rd :: fillGrid false rest ds

/-- The table `create_table_with_data` builds: blank grid, row-major fill,
fixed `Table Grid` style. -/
def create_table_core (rows cols : Nat) (data : List (List String))
    (header_bold : Bool) : Table :=
  { rows := fillGrid header_bold (blankGrid rows cols) data
  , grid_cols := cols
  , style := "Table Grid" }

/-- `create_table_with_data` tool (plain-string returns, with the
"Error creating table: " boundary prefix). -/
def create_table_with_data_body (path : String) (disk : Disk) (rows cols : Nat)
    (data : List (List String)) (header_bold : Bool) (env : Env) :
    Except String Res :=
  requireDoc (fileNotFoundMsg path) disk env (fun d =>
    let t := create_table_core rows cols data header_bold
    saveThen env { d with blocks := d.blocks ++ [.table t] }
      "Successfully created table.")

/-- `create_table_with_data` tool. -/
def create_table_with_data (path : String) (disk : Disk) (rows cols : Nat)
    (data : List (List String)) (header_bold : Bool) (env : Env) : Res :=
  catchAll (fun e => "Error creating table: " ++ e) disk
    (create_table_with_data_body path disk rows cols data header_bold env)

/-- `insert_table_after_paragraph`: bounds-check the paragraph index, build
and fill the table (unrecognized style names fall back to `Table Grid`
through the inner try/except), then move the new table right after the
target paragraph (`target_para._element.addnext(table._tbl)`). -/
def insert_table_after_paragraph_body (path : String) (disk : Disk)
    (after_index : Int) (rows cols : Nat) (data : List (List String))
    (header_bold : Bool) (style : String) (env : Env) : Except String Res :=
  requireDoc (fileNotFoundMsg path) disk env (fun d =>
    if after_index < 0 ∨ (d.paragraphs.length : Int) ≤ after_index then
      pure (Res.err (invalidParaMsg after_index d.paragraphs.length) disk)
    else
      let t0 := create_table_core rows cols data header_bold
      let t := { t0 with style := if env.style_ok style then style else "Table Grid" }
      let blocks := insertBlockAfterNthPara d.blocks after_index.toNat (.table t)
      saveThen env { d with blocks := blocks }
        ("Successfully inserted " ++ toString rows ++ "x" ++ toString cols
          ++ " table after paragraph " ++ toString after_index ++ "."))

/-- `insert_table_after_paragraph` tool. -/
def insert_table_after_paragraph (path : String) (disk : Disk) (after_index : Int)
    (rows cols : Nat) (data : List (List String)) (header_bold : Bool)
    (style : String) (env : Env) : Res :=
  catchAll id disk
    (insert_table_after_paragraph_body path disk after_index rows cols data
      header_bold style env)

/-- Python truthiness of an optional string (`if font_name:`): both `None`
and the empty string are falsy. -/
def pyTruthyStr (o : Option String) : Bool :=
  match o with
  | some s => !(s = "" : Bool)
  | none => false

/-- The run left in a cell by `update_table_cell`: `cell.text = new_text`
creates one run with default formatting, then the optional font name (with
the parallel `w:eastAsia` attribute), size and bold are assigned to it. -/
def updatedCellRun (new_text : String) (font_name : Option String)
    (font_size : Option ℚ) (is_bold : Option Bool) : Run :=
  { text := new_text
  , fmt := { bold := is_bold
           , italic := none
           , font_name := if pyTruthyStr font_name then font_name else none
           , font_size := font_size
           , east_asia := if pyTruthyStr font_name then font_name else none } }

/-- `update_table_cell`: bounds-check table, row and column (the column
against `len(table.columns)`), replace the cell content wholesale, then
apply the optional run formatting. -/
def update_table_cell_body (path : String) (disk : Disk) (table_index row col : Int)
    (new_text : String) (font_name : Option String) (font_size : Option ℚ)
    (is_bold : Option Bool) (env : Env) : Except String Res :=
  requireDoc (fileNotFoundMsg path) disk env (fun d =>
    if table_index < 0 ∨ (d.tables.length : Int) ≤ table_index then
      pure (Res.err (invalidTableMsg table_index d.tables.length) disk)
    else
      let t := d.tables.getD table_index.toNat { rows := [], grid_cols := 0 }
      if row < 0 ∨ (t.rows.length : Int) ≤ row then
        pure (Res.err (invalidRowMsg row t.rows.length) disk)
      else if col < 0 ∨ (t.grid_cols : Int) ≤ col then
        pure (Res.err (invalidColMsg col t.grid_cols) disk)
      else
        let newCell : TableCell :=
          ⟨[{ runs := [updatedCellRun new_text font_name font_size is_bold] }]⟩
        let blocks := modifyNthTable d.blocks table_index.toNat (fun tb =>
          { tb with rows := modifyNth tb.rows row.toNat (fun r =>
              modifyNth r col.toNat (fun _ => newCell)) })
        saveThen env { d with blocks := blocks }
          ("Successfully updated cell (" ++ toString row ++ ", " ++ toString col
            ++ ") in table " ++ toString table_index ++ "."))

/-- `update_table_cell` tool. -/
def update_table_cell (path : String) (disk : Disk) (table_index row col : Int)
    (new_text : String) (font_name : Option String) (font_size : Option ℚ)
    (is_bold : Option Bool) (env : Env) : Res :=
  catchAll id disk
    (update_table_cell_body path disk table_index row col new_text font_name
      font_size is_bold env)

/-- `delete_table`: bounds-check the index, then remove the table element
from its parent. -/
def delete_table_body (path : String) (disk : Disk) (table_index : Int)
    (env : Env) : Except String Res :=
  requireDoc (fileNotFoundMsg path) disk env (fun d =>
    if table_index < 0 ∨ (d.tables.length : Int) ≤ table_index then
      pure (Res.err (invalidTableMsg table_index d.tables.length) disk)
    else
      saveThen env { d with blocks := removeNthTable d.blocks table_index.toNat }
        ("Successfully deleted table at index " ++ toString table_index ++ "."))

/-- `delete_table` tool. -/
def delete_table (path : String) (disk : Disk) (table_index : Int) (env : Env) : Res :=
  catchAll id disk (delete_table_body path disk table_index env)

/-- A blank row as `table.add_row()` appends: one blank cell per grid column. -/
def blankRow (t : Table) : List TableCell :=
  List.replicate t.grid_cols blankCell

/-- `add_table_row`: bounds-check the table index; with an explicit position,
reject positions outside `[0, len(rows)]`, append a row and move its `tr`
element to lxml child index `position + 1`.  The table element's children are
`[tblPr, tblGrid, tr...]`, so the moved row actually lands at row index
`position - 1` (or 0 for position 0), one short of the stated position; the
new row's cells are then filled from `row_data` (excess data dropped). -/
def add_table_row_body (path : String) (disk : Disk) (table_index : Int)
    (row_data : List String) (position : Option Int) (env : Env) :
    Except String Res :=
  requireDoc (fileNotFoundMsg path) disk env (fun d =>
    if table_index < 0 ∨ (d.tables.length : Int) ≤ table_index then
      pure (Res.err (invalidTableMsg table_index d.tables.length) disk)
    else
      let t := d.tables.getD table_index.toNat { rows := [], grid_cols := 0 }
      match position with
      | some p =>
        if p < 0 ∨ (t.rows.length : Int) < p then
          pure (Res.err (invalidPositionMsg p t.rows.length) disk)
        else
          let filled := fillRow false (blankRow t) row_data
          let eff := if p ≤ 0 then 0 else (p - 1).toNat
          let blocks := modifyNthTable d.blocks table_index.toNat (fun tb =>
            { tb with rows := insertAt eff filled tb.rows })
          saveThen env { d with blocks := blocks }
            ("Successfully added row to table " ++ toString table_index ++ ".")
      | none =>
        let filled := fillRow false (blankRow t) row_data
        let blocks := modifyNthTable d.blocks table_index.toNat (fun tb =>
          { tb with rows := tb.rows ++ [filled] })
        saveThen env { d with blocks := blocks }
          ("Successfully added row to table " ++ toString table_index ++ "."))

/-- `add_table_row` tool. -/
def add_table_row (path : String) (disk : Disk) (table_index : Int)
    (row_data : List String) (position : Option Int) (env : Env) : Res :=
  catchAll id disk (add_table_row_body path disk table_index row_data position env)

/-- `delete_table_row`: bounds-check table and row, then remove the `tr`. -/
def delete_table_row_body (path : String) (disk : Disk) (table_index row_index : Int)
    (env : Env) : Except String Res :=
  requireDoc (fileNotFoundMsg path) disk env (fun d =>
    if table_index < 0 ∨ (d.tables.length : Int) ≤ table_index then
      pure (Res.err (invalidTableMsg table_index d.tables.length) disk)
    else
      let t := d.tables.getD table_index.toNat { rows := [], grid_cols := 0 }
      if row_index < 0 ∨ (t.rows.length : Int) ≤ row_index then
        pure (Res.err (invalidRowMsg row_index t.rows.length) disk)
      else
        let blocks := modifyNthTable d.blocks table_index.toNat (fun tb =>
          { tb with rows := removeNth tb.rows row_index.toNat })
        saveThen env { d with blocks := blocks }
          ("Successfully deleted row " ++ toString row_index ++ " from table "
            ++ toString table_index ++ "."))

/-- `delete_table_row` tool. -/
def delete_table_row (path : String) (disk : Disk) (table_index row_index : Int)
    (env : Env) : Res :=
  catchAll id disk (delete_table_row_body path disk table_index row_index env)

/-! ## Image traversal and image tools -/

/-- Where a located drawing element lives: body images carry
(paragraph, run, drawing) indices, table images additionally the
(table, row, cell) position and the cell-internal path. -/
inductive DrawLoc
  | body (para run drawing : Nat)
  | cell (tbl row col para run drawing : Nat)
deriving DecidableEq, Repr, Inhabited

/-- One located image, as `_extract_images_from_document` collects it: the
drawing element (through its position), the blip's relationship id, the
resolved image part, and the `wp:extent` dimensions (0 when absent). -/
structure ImgRef where
  loc : DrawLoc
  rid : String
  part : ImagePart
  width_emu : Int
  height_emu : Int
deriving DecidableEq, Repr, Inhabited

/-- `doc.part.related_parts.get(rId)`. -/
def lookupPart (parts : List (String × ImagePart)) (rid : String) : Option ImagePart :=
  (parts.find? (fun pr => pr.1 = rid)).map Prod.snd

/-- The images contributed by one run: every blip carrying an `r:embed`
attribute whose relationship resolves to a part with a blob yields one entry
pointing at the enclosing drawing. -/
def runImageRefs (parts : List (String × ImagePart)) (mkloc : Nat → DrawLoc)
    (r : Run) : List ImgRef :=
  r.drawings.enum.flatMap (fun pr =>
    pr.2.blips.filterMap (fun bl =>
      match bl.embed with
      | none => none
      | some rid =>
        match lookupPart parts rid with
        | none => none
        | some part =>
          if part.has_blob then
            some { loc := mkloc pr.1
                 , rid := rid
                 , part := part
                 , width_emu := (pr.2.extent.map Prod.fst).getD 0
                 , height_emu := (pr.2.extent.map Prod.snd).getD 0 }
          else none))

/-- `_extract_images_from_document`: walk the body paragraphs (paragraph
order, run order, drawing order), then, when `include_tables`, the tables
(table, row, cell, paragraph, run, drawing order). -/
def extract_images (d : Doc) (include_tables : Bool) : List ImgRef :=
  let bodyRefs := d.paragraphs.enum.flatMap (fun pp =>
    pp.2.runs.enum.flatMap (fun rr =>
      runImageRefs d.related_parts (fun di => .body pp.1 rr.1 di) rr.2))
  let tableRefs :=
    if include_tables then
      d.tables.enum.flatMap (fun tt =>
        tt.2.rows.enum.flatMap (fun rowp =>
          rowp.2.enum.flatMap (fun cellp =>
            cellp.2.paragraphs.enum.flatMap (fun pp =>
              pp.2.runs.enum.flatMap (fun rr =>
                runImageRefs d.related_parts
                  (fun di => .cell tt.1 rowp.1 cellp.1 pp.1 rr.1 di) rr.2)))))
    else []
  bodyRefs ++ tableRefs

/-- `get_images_info` tool (metadata only; the claims inspect
`extract_images`). -/
def get_images_info_body (path : String) (disk : Disk) (include_tables : Bool)
    (env : Env) : Except String Res :=
  requireDoc (fileNotFoundMsg path) disk env (fun d =>
    pure (Res.ok ("total_images="
      ++ toString (extract_images d include_tables).length) disk))

/-- `get_images_info` tool. -/
def get_images_info (path : String) (disk : Disk) (include_tables : Bool)
    (env : Env) : Res :=
  catchAll id disk (get_images_info_body path disk include_tables env)

/-- `read_images` tool: "No images found" on an empty traversal, an error
string for a missing index, otherwise the selected payloads. -/
def read_images_body (path : String) (disk : Disk) (image_index : Option Int)
    (include_tables : Bool) (env : Env) : Except String Res :=
  requireDoc ("Error: " ++ fileNotFoundMsg path) disk env (fun d =>
    let imgs := extract_images d include_tables
    if imgs.length = 0 then
      pure (Res.ok "No images found in the document." disk)
    else
      match image_index with
      | none => pure (Res.imgs imgs.length disk)
      | some ii =>
        let sel := imgs.enum.filter (fun pr => ((pr.1 : Int) = ii : Bool))
        if sel.length = 0 then
          pure (Res.err ("Error: Image index " ++ toString ii ++ " not found. Document has "
            ++ toString imgs.length ++ " images (0-"
            ++ toString ((imgs.length : Int) - 1) ++ ").") disk)
        else pure (Res.imgs sel.length disk))

/-- `read_images` tool. -/
def read_images (path : String) (disk : Disk) (image_index : Option Int)
    (include_tables : Bool) (env : Env) : Res :=
  catchAll (fun e => "Error reading images: " ++ e) disk
    (read_images_body path disk image_index include_tables env)

/-- An image file on disk, as `run.add_picture` consumes it: its native
pixel-derived EMU dimensions and its package metadata. -/
structure ImageFile where
  filename : String
  content_type : String
  blob_size : Nat
  native_width_emu : Int
  native_height_emu : Int
deriving DecidableEq, Repr

/-- `Inches(x)` in EMU (914400 per inch), at rational precision. -/
def emuOfInches (q : ℚ) : Int := (q * 914400).floor

/-- The extent `add_picture` records: explicit dimensions in inches when
given, the missing one scaled to keep the native aspect ratio, native size
when neither is given (scaling modelled at rational precision). -/
def pictureDims (img : ImageFile) (w h : Option ℚ) : Int × Int :=
  match w, h with
  | some wi, some hi => (emuOfInches wi, emuOfInches hi)
  | some wi, none =>
    (emuOfInches wi,
      ((img.native_height_emu : ℚ) * wi * 914400 / (img.native_width_emu : ℚ)).floor)
  | none, some hi =>
    (((img.native_width_emu : ℚ) * hi * 914400 / (img.native_height_emu : ℚ)).floor,
      emuOfInches hi)
  | none, none => (img.native_width_emu, img.native_height_emu)

/-- The next free relationship id when a picture part is added. -/
def freshRid (d : Doc) : String := "rId" ++ toString (d.related_parts.length + 1)

/-- `run.add_picture` on a document-backed run: register the image part
under a fresh relationship id and append the drawing to the run.  Returns
the updated relationship table and the drawing. -/
def addPicturePart (d : Doc) (img : ImageFile) (w h : Option ℚ) :
    List (String × ImagePart) × Drawing :=
  let rid := freshRid d
  let part : ImagePart :=
    { partname := img.filename, content_type := img.content_type
    , blob_size := img.blob_size, has_blob := true }
  ( d.related_parts ++ [(rid, part)]
  , { blips := [⟨some rid⟩], extent := some (pictureDims img w h) } )

/-- `add_image`: append a paragraph holding one picture run, aligned through
the three-entry map. -/
def add_image_body (path : String) (disk : Disk) (image : Option ImageFile)
    (width_inches height_inches : Option ℚ) (alignment : String) (env : Env) :
    Except String Res :=
  match disk with
  | none => pure (Res.err ("Document not found: " ++ path) none)
  | some d =>
    match image with
    | none => pure (Res.err "Image not found: (image path)" (some d))
    | some img =>
      match env.open_err with
      | some m => throw m
      | none =>
        let ad := addPicturePart d img width_inches height_inches
        let p : Para :=
          { runs := [{ text := "", drawings := [ad.2] }]
          , alignment := some (alignMapImage alignment) }
        saveThen env { blocks := d.blocks ++ [.para p], related_parts := ad.1 }
          "Successfully added image to document."

/-- `add_image` tool. -/
def add_image (path : String) (disk : Disk) (image : Option ImageFile)
    (width_inches height_inches : Option ℚ) (alignment : String) (env : Env) : Res :=
  catchAll id disk
    (add_image_body path disk image width_inches height_inches alignment env)

/-- `insert_image_after_paragraph`: like `add_image`, but the picture
paragraph is spliced immediately after the bounds-checked target paragraph. -/
def insert_image_after_paragraph_body (path : String) (disk : Disk)
    (after_index : Int) (image : Option ImageFile)
    (width_inches height_inches : Option ℚ) (alignment : String) (env : Env) :
    Except String Res :=
  match disk with
  | none => pure (Res.err ("Document not found: " ++ path) none)
  | some d =>
    match image with
    | none => pure (Res.err "Image not found: (image path)" (some d))
    | some img =>
      match env.open_err with
      | some m => throw m
      | none =>
        if after_index < 0 ∨ (d.paragraphs.length : Int) ≤ after_index then
          pure (Res.err (invalidParaMsg after_index d.paragraphs.length) (some d))
        else
          let ad := addPicturePart d img width_inches height_inches
          let p : Para :=
            { runs := [{ text := "", drawings := [ad.2] }]
            , alignment := some (alignMapImage alignment) }
          let blocks := insertBlockAfterNthPara d.blocks after_index.toNat (.para p)
          saveThen env { blocks := blocks, related_parts := ad.1 }
            ("Successfully inserted image after paragraph "
              ++ toString after_index ++ ".")

/-- `insert_image_after_paragraph` tool. -/
def insert_image_after_paragraph (path : String) (disk : Disk) (after_index : Int)
    (image : Option ImageFile) (width_inches height_inches : Option ℚ)
    (alignment : String) (env : Env) : Res :=
  catchAll id disk
    (insert_image_after_paragraph_body path disk after_index image width_inches
      height_inches alignment env)

/-- Remove the drawing element a locator points at from its run
(`parent.remove(drawing_element)`). -/
def removeDrawing (d : Doc) (loc : DrawLoc) : Doc :=
  match loc with
  | .body p r di =>
    { d with blocks := modifyNthPara d.blocks p (fun para =>
        { para with runs := modifyNth para.runs r (fun ru =>
            { ru with drawings := removeNth ru.drawings di }) }) }
  | .cell t row col p r di =>
    { d with blocks := modifyNthTable d.blocks t (fun tb =>
        { tb with rows := modifyNth tb.rows row (fun rw =>
            modifyNth rw col (fun c =>
              { c with paragraphs := modifyNth c.paragraphs p (fun para =>
                  { para with runs := modifyNth para.runs r (fun ru =>
                      { ru with drawings := removeNth ru.drawings di }) }) })) }) }

/-- `delete_image`: re-run the traversal, bounds-check the index, remove the
drawing element, save. -/
def delete_image_body (path : String) (disk : Disk) (image_index : Int)
    (env : Env) : Except String Res :=
  requireDoc (fileNotFoundMsg path) disk env (fun d =>
    let imgs := extract_images d true
    if image_index < 0 ∨ (imgs.length : Int) ≤ image_index then
      pure (Res.err (invalidImageMsg image_index imgs.length) disk)
    else
      let target := imgs.getD image_index.toNat default
      saveThen env (removeDrawing d target.loc)
        ("Successfully deleted image at index " ++ toString image_index ++ "."))

/-- `delete_image` tool. -/
def delete_image (path : String) (disk : Disk) (image_index : Int) (env : Env) : Res :=
  catchAll id disk (delete_image_body path disk image_index env)

/-- Modelled from the python-docx library: a `Run` proxy resolves
`self.part` through its parent (`StoryChild.part` is `self._parent.part`),
and `Run.add_picture` begins with `self.part.new_pic_inline(...)`.
`replace_image` constructs the proxy as `Run(run_element, None)`, so the
part lookup dereferences `None` and raises before any picture is added. -/
def runProxyAddPicture (parent : Option Doc) : Except String (Option Doc) :=
  match parent with
  | none => throw "AttributeError: NoneType object has no attribute part"
  | some d => pure (some d)

/-- `replace_image`: re-run the traversal, bounds-check the index, fall back
to the prior extent for missing dimensions, remove the old drawing, then call
`add_picture` on a `Run(run_element, None)` proxy — which raises, so the
boundary returns an error and the file is never saved. -/
def replace_image_body (path : String) (disk : Disk) (image_index : Int)
    (new_image : Option ImageFile) (width_inches height_inches : Option ℚ)
    (env : Env) : Except String Res :=
  match disk with
  | none => pure (Res.err ("Document not found: " ++ path) none)
  | some d =>
    match new_image with
    | none => pure (Res.err "New image not found: (image path)" (some d))
    | some img =>
      match env.open_err with
      | some m => throw m
      | none =>
        let imgs := extract_images d true
        if image_index < 0 ∨ (imgs.length : Int) ≤ image_index then
          pure (Res.err (invalidImageMsg image_index imgs.length) (some d))
        else
          let target := imgs.getD image_index.toNat default
          let w := match width_inches with
            | some wi => some wi
            | none => if 0 < target.width_emu
                then some ((target.width_emu : ℚ) / 914400) else none
          let h := match height_inches with
            | some hi => some hi
            | none => if 0 < target.height_emu
                then some ((target.height_emu : ℚ) / 914400) else none
          let d2 := removeDrawing d target.loc
          do
            let _ ← runProxyAddPicture none
            let ad := addPicturePart d2 img w h
            saveThen env { d2 with related_parts := ad.1 }
              ("Successfully replaced image at index " ++ toString image_index ++ ".")

/-- `replace_image` tool. -/
def replace_image (path : String) (disk : Disk) (image_index : Int)
    (new_image : Option ImageFile) (width_inches height_inches : Option ℚ)
    (env : Env) : Res :=
  catchAll id disk
    (replace_image_body path disk image_index new_image width_inches
      height_inches env)

/-! ## The transport dispatch -/

/-- One named tool invocation with its typed arguments, as the transport
dispatches it. -/
inductive ToolCall
  | create_new_document (path : String)
  | get_document_info (path : String)
  | read_document_structure (path : String) (start_index limit : Int)
      (include_empty : Bool)
  | read_tables (path : String) (table_index : Option Int)
  | add_formatted_paragraph (path text font_name : String) (font_size : ℚ)
      (is_bold : Bool) (alignment : String) (indent_first_line : ℚ)
      (line_spacing : Option ℚ)
  | replace_paragraph (path : String) (paragraph_index : Int)
      (new_text font_name : String) (font_size : ℚ) (is_bold : Bool)
      (alignment : String) (indent_first_line : ℚ) (line_spacing : Option ℚ)
  | insert_paragraph_after (path : String) (after_index : Int)
      (text font_name : String) (font_size : ℚ) (is_bold : Bool)
      (alignment : String) (indent_first_line : ℚ) (line_spacing : Option ℚ)
  | search_and_replace (path search_text replace_text : String) (match_case : Bool)
  | create_table_with_data (path : String) (rows cols : Nat)
      (data : List (List String)) (header_bold : Bool)
  | get_images_info (path : String) (include_tables : Bool)
  | read_images (path : String) (image_index : Option Int) (include_tables : Bool)
  | add_image (path : String) (image : Option ImageFile)
      (width_inches height_inches : Option ℚ) (alignment : String)
  | insert_image_after_paragraph (path : String) (after_index : Int)
      (image : Option ImageFile) (width_inches height_inches : Option ℚ)
      (alignment : String)
  | delete_image (path : String) (image_index : Int)
  | replace_image (path : String) (image_index : Int) (new_image : Option ImageFile)
      (width_inches height_inches : Option ℚ)
  | insert_table_after_paragraph (path : String) (after_index : Int)
      (rows cols : Nat) (data : List (List String)) (header_bold : Bool)
      (style : String)
  | update_table_cell (path : String) (table_index row col : Int)
      (new_text : String) (font_name : Option String) (font_size : Option ℚ)
      (is_bold : Option Bool)
  | delete_table (path : String) (table_index : Int)
  | add_table_row (path : String) (table_index : Int) (row_data : List String)
      (position : Option Int)
  | delete_table_row (path : String) (table_index row_index : Int)

/-- The try-block body of a dispatched call, before the exception boundary. -/
def runToolBody : ToolCall → Disk → Env → Except String Res
  | .create_new_document path, _, env => create_new_document_body path env
  | .get_document_info path, disk, env => get_document_info_body path disk env
  | .read_document_structure path st li ie, disk, env =>
    read_document_structure_body path disk st li ie env
  | .read_tables path ti, disk, env => read_tables_body path disk ti env
  | .add_formatted_paragraph path text fn fs b al ind ls, disk, env =>
    add_formatted_paragraph_body path disk text fn fs b al ind ls env
  | .replace_paragraph path i nt fn fs b al ind ls, disk, env =>
    replace_paragraph_body path disk i nt fn fs b al ind ls env
  | .insert_paragraph_after path i text fn fs b al ind ls, disk, env =>
    insert_paragraph_after_body path disk i text fn fs b al ind ls env
  | .search_and_replace path st rt mc, disk, env =>
    search_and_replace_body path disk st rt mc env
  | .create_table_with_data path r c data hb, disk, env =>
    create_table_with_data_body path disk r c data hb env
  | .get_images_info path it, disk, env => get_images_info_body path disk it env
  | .read_images path ii it, disk, env => read_images_body path disk ii it env
  | .add_image path img w h al, disk, env => add_image_body path disk img w h al env
  | .insert_image_after_paragraph path i img w h al, disk, env =>
    insert_image_after_paragraph_body path disk i img w h al env
  | .delete_image path i, disk, env => delete_image_body path disk i env
  | .replace_image path i img w h, disk, env =>
    replace_image_body path disk i img w h env
  | .insert_table_after_paragraph path i r c data hb sty, disk, env =>
    insert_table_after_paragraph_body path disk i r c data hb sty env
  | .update_table_cell path t r c nt fn fs b, disk, env =>
    update_table_cell_body path disk t r c nt fn fs b env
  | .delete_table path t, disk, env => delete_table_body path disk t env
  | .add_table_row path t rd pos, disk, env =>
    add_table_row_body path disk t rd pos env
  | .delete_table_row path t r, disk, env => delete_table_row_body path disk t r env

/-- How each tool's boundary renders a caught exception: the identity for the
JSON tools, a prefix for the three plain-string tools. -/
def errorRender : ToolCall → String → String
  | .create_new_document _, e => "Error creating document: " ++ e
  | .create_table_with_data _ _ _ _ _, e => "Error creating table: " ++ e
  | .read_images _ _ _, e => "Error reading images: " ++ e
  | _, e => e

/-- A dispatched call as the transport sees it: the boundary-wrapped tool. -/
def runTool : ToolCall → Disk → Env → Res
  | .create_new_document path, disk, env => create_new_document path disk env
  | .get_document_info path, disk, env => get_document_info path disk env
  | .read_document_structure path st li ie, disk, env =>
    read_document_structure path disk st li ie env
  | .read_tables path ti, disk, env => read_tables path disk ti env
  | .add_formatted_paragraph path text fn fs b al ind ls, disk, env =>
    add_formatted_paragraph path disk text fn fs b al ind ls env
  | .replace_paragraph path i nt fn fs b al ind ls, disk, env =>
    replace_paragraph path disk i nt fn fs b al ind ls env
  | .insert_paragraph_after path i text fn fs b al ind ls, disk, env =>
    insert_paragraph_after path disk i text fn fs b al ind ls env
  | .search_and_replace path st rt mc, disk, env =>
    search_and_replace path disk st rt mc env
  | .create_table_with_data path r c data hb, disk, env =>
    create_table_with_data path disk r c data hb env
  | .get_images_info path it, disk, env => get_images_info path disk it env
  | .read_images path ii it, disk, env => read_images path disk ii it env
  | .add_image path img w h al, disk, env => add_image path disk img w h al env
  | .insert_image_after_paragraph path i img w h al, disk, env =>
    insert_image_after_paragraph path disk i img w h al env
  | .delete_image path i, disk, env => delete_image path disk i env
  | .replace_image path i img w h, disk, env =>
    replace_image path disk i img w h env
  | .insert_table_after_paragraph path i r c data hb sty, disk, env =>
    insert_table_after_paragraph path disk i r c data hb sty env
  | .update_table_cell path t r c nt fn fs b, disk, env =>
    update_table_cell path disk t r c nt fn fs b env
  | .delete_table path t, disk, env => delete_table path disk t env
  | .add_table_row path t rd pos, disk, env => add_table_row path disk t rd pos env
  | .delete_table_row path t r, disk, env => delete_table_row path disk t r env

/-! ## Concrete documents used by the claim theorems -/

/-- A document whose body is one paragraph holding the single run
"Hello World, Hello Everyone". -/
def helloDoc : Doc :=
  { blocks := [.para { runs := [{ text := "Hello World, Hello Everyone" }] }] }

/-- A PNG image part registered under rId1. -/
def pngPart : ImagePart :=
  { partname := "media/image1.png", content_type := "image/png", blob_size := 4 }

/-- A document with exactly one embedded image: one body paragraph whose run
holds one drawing (extent 1x1 inch) whose blip embeds rId1. -/
def oneImageDoc : Doc :=
  let dr : Drawing := { blips := [⟨some "rId1"⟩], extent := some (914400, 914400) }
  let r : Run := { text := "", drawings := [dr] }
  { blocks := [.para { runs := [r] }], related_parts := [("rId1", pngPart)] }

/-- A replacement image file on disk. -/
def newPng : ImageFile :=
  { filename := "new.png", content_type := "image/png", blob_size := 7
  , native_width_emu := 914400, native_height_emu := 914400 }

/-- A document holding one 2-row, 1-column table of blank cells. -/
def twoRowDoc : Doc :=
  { blocks := [.table { rows := [[blankCell], [blankCell]], grid_cols := 1 }] }

/-- A document with one non-empty paragraph followed by one empty paragraph. -/
def mixedDoc : Doc :=
  { blocks := [.para { runs := [{ text := "a" }] }, .para { runs := [] }] }

/-- C1: the run "Hello World, Hello Everyone" contains the search text twice
and both occurrences are replaced, but the counter is bumped once per run. -/
theorem c1_search_count_eval :
    (search_and_replace_core helloDoc "Hello" "Hi" true).2 = 1
    ∧ strCount "Hello" "Hello World, Hello Everyone" = 2
    ∧ ((search_and_replace_core helloDoc "Hello" "Hi" true).1.paragraphs.map
        Para.text) = ["Hi World, Hi Everyone"]
    ∧ search_and_replace "d.docx" (some helloDoc) "Hello" "Hi" true {} =
        Res.ok "Replaced 1 occurrence(s) of Hello."
          (some { blocks := [.para { runs := [{ text := "Hi World, Hi Everyone" }] }] }) := by
  refine ⟨by decide, by decide, by decide, by decide⟩

/-- C5: on a document whose only image sits at index 0, `replace_image`
reaches the `Run(run_element, None).add_picture` call, whose part lookup
through the absent parent raises; the boundary returns the error and the
file keeps its original content — the image is never replaced. -/
theorem c5_replace_image_eval :
    (extract_images oneImageDoc true).length = 1
    ∧ replace_image "d.docx" (some oneImageDoc) 0 (some newPng) none none {} =
        Res.err "AttributeError: NoneType object has no attribute part"
          (some oneImageDoc) := by
  refine ⟨by decide, by decide⟩

/-- C9: `create` writes the empty default package, and `inspect` on it
reports zero paragraphs and zero tables. -/
theorem c9_new_document_counts :
    create_new_document "out.docx" none {} =
      Res.ok "Successfully created new document at out.docx" (some newDocument)
    ∧ (get_document_info_core newDocument).total_paragraphs = 0
    ∧ (get_document_info_core newDocument).total_tables = 0 := by
  refine ⟨by decide, by decide, by decide⟩

/-- C4: whatever exception a tool's body raises — missing-library failures on
open or save included — the operation boundary turns it into a structured
error result for the transport, with the on-disk file untouched; no
exception escapes a dispatched call. -/
theorem c4_exception_boundary :
    ∀ (c : ToolCall) (disk : Disk) (env : Env) (e : String),
      runToolBody c disk env = Except.error e →
      runTool c disk env = Res.err (errorRender c e) disk := by
  intro c disk env e h
  cases c <;>
    simp_all [runTool, runToolBody, errorRender, catchAll,
      create_new_document, get_document_info, read_document_structure,
      read_tables, add_formatted_paragraph, replace_paragraph,
      insert_paragraph_after, search_and_replace, create_table_with_data,
      get_images_info, read_images, add_image, insert_image_after_paragraph,
      delete_image, replace_image, insert_table_after_paragraph,
      update_table_cell, delete_table, add_table_row, delete_table_row]

/-- Witness for C4: a concrete call whose body raises on open is returned as
a structured error with the disk unchanged. -/
theorem c4_exception_boundary_witness :
    runToolBody (.get_document_info "a.docx") (some newDocument)
        { open_err := some "boom" } = Except.error "boom"
    ∧ runTool (.get_document_info "a.docx") (some newDocument)
        { open_err := some "boom" } = Res.err "boom" (some newDocument) :=
  ⟨rfl, c4_exception_boundary _ _ _ _ rfl⟩

/-- C2 counterexample: `add_table_row` with an explicit position equal to the
current row count (an index ≥ count) does not return an InvalidIndex error —
it succeeds and modifies the document. -/
theorem c2_position_eq_count_succeeds :
    ((twoRowDoc.tables.getD 0 { rows := [], grid_cols := 0 }).rows.length : Int) = 2
    ∧ add_table_row "t.docx" (some twoRowDoc) 0 ["x"] (some 2) {} =
        Res.ok "Successfully added row to table 0."
          (some { blocks := [.table { rows := [[blankCell], [setCellText false "x"], [blankCell]]
                                    , grid_cols := 1 }] }) := by
  refine ⟨by decide, by decide⟩

/-- C3 counterexample: on a document whose only remaining paragraph beyond
the returned page is empty, `has_more` is reported true although no
subsequent page (with `include_empty` unset) returns anything. -/
theorem c3_has_more_false_positive :
    (read_document_structure_core mixedDoc 0 50 false).has_more = true
    ∧ (read_document_structure_core mixedDoc 0 50 false).paragraphs.length = 1
    ∧ ((mixedDoc.paragraphs.drop 1).all (fun p => pyStrip p.text == "")) = true
    ∧ (read_document_structure_core mixedDoc 1 50 false).paragraphs = []
    ∧ (read_document_structure_core mixedDoc 2 50 false).paragraphs = [] := by
  refine ⟨by decide, by decide, by decide, by decide, by decide⟩

/-! ## Lemma kit: paragraph filtering and positional insertion -/

/-- The paragraph view of a block list (the list `doc.paragraphs` filters). -/
def parasOf (bs : List Block) : List Para :=
  bs.filterMap (fun b => match b with
    | .para p => some p
    | .table _ => none)

theorem paragraphs_def (d : Doc) : d.paragraphs = parasOf d.blocks := rfl

theorem parasOf_cons_para (q : Para) (rest : List Block) :
    parasOf (.para q :: rest) = q :: parasOf rest := by
  simp [parasOf]

theorem parasOf_cons_table (t : Table) (rest : List Block) :
    parasOf (.table t :: rest) = parasOf rest := by
  simp [parasOf]

theorem length_insertAt {α : Type} (n : Nat) (a : α) (l : List α) :
    (insertAt n a l).length = l.length + 1 := by
  induction l generalizing n with
  | nil => cases n <;> simp [insertAt]
  | cons x xs ih =>
    cases n with
    | zero => simp [insertAt]
    | succ m => simp [insertAt, ih]

theorem get?_insertAt_lt {α : Type} (n : Nat) (a : α) (l : List α) (j : Nat)
    (hj : j < n) (hn : n ≤ l.length) : (insertAt n a l).get? j = l.get? j := by
  induction l generalizing n j with
  | nil => simp at hn; omega
  | cons x xs ih =>
    cases n with
    | zero => omega
    | succ m =>
      cases j with
      | zero => simp [insertAt]
      | succ jj => simpa [insertAt] using ih m jj (by omega) (by simpa using hn)

theorem get?_insertAt_self {α : Type} (n : Nat) (a : α) (l : List α)
    (hn : n ≤ l.length) : (insertAt n a l).get? n = some a := by
  induction l generalizing n with
  | nil =>
    cases n with
    | zero => simp [insertAt]
    | succ m => simp at hn
  | cons x xs ih =>
    cases n with
    | zero => simp [insertAt]
    | succ m => simpa [insertAt] using ih m (by simpa using hn)

theorem get?_insertAt_gt {α : Type} (n : Nat) (a : α) (l : List α) (j : Nat)
    (hj : n ≤ j) : (insertAt n a l).get? (j + 1) = l.get? j := by
  induction l generalizing n j with
  | nil =>
    cases n with
    | zero => simp [insertAt]
    | succ m => cases j with
      | zero => omega
      | succ jj => simp [insertAt]
  | cons x xs ih =>
    cases n with
    | zero => simp [insertAt]
    | succ m =>
      cases j with
      | zero => omega
      | succ jj => simpa [insertAt] using ih m jj (by omega)

/-- Splicing a paragraph block right after the `n`-th paragraph block puts the
new paragraph at position `n+1` of the paragraph view, whatever tables sit in
between. -/
theorem parasOf_insert_after (bs : List Block) (n : Nat) (p : Para)
    (h : n < (parasOf bs).length) :
    parasOf (insertBlockAfterNthPara bs n (.para p)) =
      insertAt (n + 1) p (parasOf bs) := by
  induction bs generalizing n with
  | nil => simp [parasOf] at h
  | cons b rest ih =>
    cases b with
    | para q =>
      cases n with
      | zero =>
        simp only [insertBlockAfterNthPara, parasOf_cons_para, insertAt]
        rfl
      | succ m =>
        have hm : m < (parasOf rest).length := by
          simpa [parasOf_cons_para] using h
        simp only [insertBlockAfterNthPara, parasOf_cons_para, insertAt, ih m hm]
        rfl
    | table t =>
      have hm : n < (parasOf rest).length := by
        simpa [parasOf_cons_table] using h
      simp only [insertBlockAfterNthPara, parasOf_cons_table, ih n hm]

/-- The formatted single-run paragraph the paragraph tools build from their
arguments (fresh `w:p`, one run, `_apply_paragraph_format`). -/
def fmtParaOf (text fn : String) (fs : ℚ) (b : Bool) (al : String) (ind : ℚ)
    (ls : Option ℚ) : Para :=
  applyParagraphFormat freshPara text fn fs b al ind ls

/-- The document after splicing paragraph `p` right after paragraph block `i`. -/
def docWithInsertedPara (d : Doc) (i : Nat) (p : Para) : Doc :=
  { d with blocks := insertBlockAfterNthPara d.blocks i (.para p) }

/-- C7: for every document and valid paragraph index `i`,
`insert_paragraph_after(i, text)` succeeds, the paragraph count grows by
exactly 1, the new paragraph (the formatted single-run paragraph built from
the arguments) sits at index `i+1`, paragraphs up to `i` keep their index and
paragraphs after `i` shift by one, preserving relative order. -/
theorem c7_insert_paragraph_after (d : Doc) (i : Nat) (path text fn : String)
    (fs : ℚ) (b : Bool) (al : String) (ind : ℚ) (ls : Option ℚ) (env : Env)
    (hopen : env.open_err = none) (hsave : env.save_err = none)
    (hi : i < d.paragraphs.length) :
    insert_paragraph_after path (some d) (i : Int) text fn fs b al ind ls env =
      Res.ok ("Successfully inserted paragraph after index " ++ toString (i : Int) ++ ".")
        (some (docWithInsertedPara d i (fmtParaOf text fn fs b al ind ls)))
    ∧ (docWithInsertedPara d i (fmtParaOf text fn fs b al ind ls)).paragraphs.length
        = d.paragraphs.length + 1
    ∧ (docWithInsertedPara d i (fmtParaOf text fn fs b al ind ls)).paragraphs.get? (i + 1)
        = some (fmtParaOf text fn fs b al ind ls)
    ∧ (∀ j, j ≤ i →
        (docWithInsertedPara d i (fmtParaOf text fn fs b al ind ls)).paragraphs.get? j
          = d.paragraphs.get? j)
    ∧ (∀ j, i < j →
        (docWithInsertedPara d i (fmtParaOf text fn fs b al ind ls)).paragraphs.get? (j + 1)
          = d.paragraphs.get? j) := by
  have hins : parasOf (insertBlockAfterNthPara d.blocks i
      (.para (fmtParaOf text fn fs b al ind ls))) =
      insertAt (i + 1) (fmtParaOf text fn fs b al ind ls) (parasOf d.blocks) :=
    parasOf_insert_after d.blocks i _ hi
  have hlen : i + 1 ≤ (parasOf d.blocks).length := hi
  refine ⟨?_, ?_, ?_, ?_, ?_⟩
  · simp only [insert_paragraph_after, insert_paragraph_after_body, requireDoc,
      hopen, catchAll]
    rw [if_neg (by omega)]
    simp [saveThen, hsave, docWithInsertedPara, fmtParaOf, pure, Except.pure]
  · simp only [docWithInsertedPara, paragraphs_def, hins, length_insertAt]
  · simp only [docWithInsertedPara, paragraphs_def, hins]
    exact get?_insertAt_self _ _ _ hlen
  · intro j hj
    simp only [docWithInsertedPara, paragraphs_def, hins]
    exact get?_insertAt_lt _ _ _ _ (by omega) hlen
  · intro j hj
    simp only [docWithInsertedPara, paragraphs_def, hins]
    exact get?_insertAt_gt _ _ _ _ (by omega)

/-- Witness for C7 at a concrete document and index 0. -/
theorem c7_insert_paragraph_after_witness :
    (0 < mixedDoc.paragraphs.length)
    ∧ (docWithInsertedPara mixedDoc 0
        (fmtParaOf "new" "SimSun" 12 false "LEFT" 0 none)).paragraphs.length
        = mixedDoc.paragraphs.length + 1 := by
  refine ⟨by decide, ?_⟩
  exact (c7_insert_paragraph_after mixedDoc 0 "p.docx" "new" "SimSun" 12 false "LEFT"
    0 none {} rfl rfl (by decide)).2.1

/-- The document after `add_formatted_paragraph` appends `p`. -/
def docWithAppendedPara (d : Doc) (p : Para) : Doc :=
  { d with blocks := d.blocks ++ [.para p] }

/-- The document after `replace_paragraph` clears paragraph `i` and rebuilds
it as one formatted run. -/
def docWithReplacedPara (d : Doc) (i : Nat) (nt fn : String) (fs : ℚ) (b : Bool)
    (al : String) (ind : ℚ) (ls : Option ℚ) : Doc :=
  { d with blocks := modifyNthPara d.blocks i (fun p =>
      applyParagraphFormat { p with runs := [] } nt fn fs b al ind ls) }

/-- The picture paragraph `add_image` / `insert_image_after_paragraph` build:
one empty-text run holding the new drawing, aligned through the three-entry
map. -/
def imageParaOf (d : Doc) (img : ImageFile) (w h : Option ℚ) (al : String) : Para :=
  { runs := [{ text := "", drawings := [(addPicturePart d img w h).2] }]
  , alignment := some (alignMapImage al) }

/-- The document after `add_image`. -/
def docWithAppendedImage (d : Doc) (img : ImageFile) (w h : Option ℚ)
    (al : String) : Doc :=
  { blocks := d.blocks ++ [.para (imageParaOf d img w h al)]
  , related_parts := (addPicturePart d img w h).1 }

/-- The document after `insert_image_after_paragraph` at paragraph `i`. -/
def docWithInsertedImage (d : Doc) (i : Nat) (img : ImageFile) (w h : Option ℚ)
    (al : String) : Doc :=
  { blocks := insertBlockAfterNthPara d.blocks i (.para (imageParaOf d img w h al))
  , related_parts := (addPicturePart d img w h).1 }

/-- C10: an unrecognized alignment string never causes an error.  For the
three paragraph tools the stored alignment comes from the four-entry map,
which sends anything outside LEFT/CENTER/RIGHT/JUSTIFY (upper-cased) to
LEFT; for the two image tools it comes from the three-entry map, which sends
anything outside LEFT/CENTER/RIGHT to CENTER; and with any alignment string
whatsoever every one of the five tools succeeds on a loaded document (valid
index where one is needed). -/
theorem c10_alignment_never_errors (s : String) :
    (pyUpper s ≠ "LEFT" → pyUpper s ≠ "CENTER" → pyUpper s ≠ "RIGHT" →
      pyUpper s ≠ "JUSTIFY" → alignMapPara s = .LEFT)
    ∧ (pyUpper s ≠ "LEFT" → pyUpper s ≠ "CENTER" → pyUpper s ≠ "RIGHT" →
        alignMapImage s = .CENTER)
    ∧ (∀ (base : Para) (text fn : String) (fs : ℚ) (b : Bool) (ind : ℚ)
          (ls : Option ℚ),
        (applyParagraphFormat base text fn fs b s ind ls).alignment
          = some (alignMapPara s))
    ∧ (∀ (d : Doc) (img : ImageFile) (w h : Option ℚ),
        (imageParaOf d img w h s).alignment = some (alignMapImage s))
    ∧ (∀ (path text fn : String) (d : Doc) (fs : ℚ) (b : Bool) (ind : ℚ)
          (ls : Option ℚ) (env : Env),
        env.open_err = none → env.save_err = none →
        add_formatted_paragraph path (some d) text fn fs b s ind ls env =
          Res.ok "Successfully added formatted paragraph."
            (some (docWithAppendedPara d (fmtParaOf text fn fs b s ind ls))))
    ∧ (∀ (path nt fn : String) (d : Doc) (i : Nat) (fs : ℚ) (b : Bool) (ind : ℚ)
          (ls : Option ℚ) (env : Env),
        env.open_err = none → env.save_err = none → i < d.paragraphs.length →
        replace_paragraph path (some d) (i : Int) nt fn fs b s ind ls env =
          Res.ok ("Successfully replaced paragraph at index " ++ toString (i : Int) ++ ".")
            (some (docWithReplacedPara d i nt fn fs b s ind ls)))
    ∧ (∀ (path text fn : String) (d : Doc) (i : Nat) (fs : ℚ) (b : Bool) (ind : ℚ)
          (ls : Option ℚ) (env : Env),
        env.open_err = none → env.save_err = none → i < d.paragraphs.length →
        insert_paragraph_after path (some d) (i : Int) text fn fs b s ind ls env =
          Res.ok ("Successfully inserted paragraph after index " ++ toString (i : Int) ++ ".")
            (some (docWithInsertedPara d i (fmtParaOf text fn fs b s ind ls))))
    ∧ (∀ (path : String) (d : Doc) (img : ImageFile) (w h : Option ℚ) (env : Env),
        env.open_err = none → env.save_err = none →
        add_image path (some d) (some img) w h s env =
          Res.ok "Successfully added image to document."
            (some (docWithAppendedImage d img w h s)))
    ∧ (∀ (path : String) (d : Doc) (i : Nat) (img : ImageFile) (w h : Option ℚ)
          (env : Env),
        env.open_err = none → env.save_err = none → i < d.paragraphs.length →
        insert_image_after_paragraph path (some d) (i : Int) (some img) w h s env =
          Res.ok ("Successfully inserted image after paragraph " ++ toString (i : Int) ++ ".")
            (some (docWithInsertedImage d i img w h s))) := by
  refine ⟨?_, ?_, ?_, ?_, ?_, ?_, ?_, ?_, ?_⟩
  · intro h1 h2 h3 h4
    simp only [alignMapPara, if_neg h1, if_neg h2, if_neg h3, if_neg h4]
  · intro h1 h2 h3
    simp only [alignMapImage, if_neg h1, if_neg h2, if_neg h3]
  · intro base text fn fs b ind ls
    simp [applyParagraphFormat]
  · intro d img w h
    simp [imageParaOf]
  · intro path text fn d fs b ind ls env hopen hsave
    simp [add_formatted_paragraph, add_formatted_paragraph_body, requireDoc,
      hopen, catchAll, saveThen, hsave, docWithAppendedPara, fmtParaOf,
      pure, Except.pure]
  · intro path nt fn d i fs b ind ls env hopen hsave hi
    simp only [replace_paragraph, replace_paragraph_body, requireDoc, hopen,
      catchAll]
    rw [if_neg (by omega)]
    simp [saveThen, hsave, docWithReplacedPara, pure, Except.pure]
  · intro path text fn d i fs b ind ls env hopen hsave hi
    simp only [insert_paragraph_after, insert_paragraph_after_body, requireDoc,
      hopen, catchAll]
    rw [if_neg (by omega)]
    simp [saveThen, hsave, docWithInsertedPara, fmtParaOf, pure, Except.pure]
  · intro path d img w h env hopen hsave
    simp [add_image, add_image_body, hopen, catchAll, saveThen, hsave,
      docWithAppendedImage, imageParaOf, pure, Except.pure]
  · intro path d i img w h env hopen hsave hi
    simp only [insert_image_after_paragraph, insert_image_after_paragraph_body,
      hopen, catchAll]
    rw [if_neg (by omega)]
    simp [saveThen, hsave, docWithInsertedImage, imageParaOf, pure, Except.pure]

/-- Witness for C10: the string "banana" is outside both maps; the paragraph
map yields LEFT, the image map CENTER, and a concrete `add_formatted_paragraph`
call succeeds with it. -/
theorem c10_alignment_never_errors_witness :
    alignMapPara "banana" = .LEFT
    ∧ alignMapImage "banana" = .CENTER
    ∧ add_formatted_paragraph "p.docx" (some newDocument) "t" "SimSun" 12 false
        "banana" 0 none {} =
      Res.ok "Successfully added formatted paragraph."
        (some (docWithAppendedPara newDocument (fmtParaOf "t" "SimSun" 12 false "banana" 0 none))) := by
  refine ⟨?_, ?_, ?_⟩
  · exact (c10_alignment_never_errors "banana").1 (by decide) (by decide)
      (by decide) (by decide)
  · exact (c10_alignment_never_errors "banana").2.1 (by decide) (by decide)
      (by decide)
  · exact (c10_alignment_never_errors "banana").2.2.2.2.1 "p.docx" "t" "SimSun"
      newDocument 12 false 0 none {} rfl rfl

/-- `doc.tables[i]` as the table tools read it after their bounds check. -/
def tableAt (d : Doc) (i : Nat) : Table :=
  d.tables.getD i { rows := [], grid_cols := 0 }

/-- C2 (amended): every index-taking operation, called on an existing,
loadable document with an out-of-range index, returns the InvalidIndex error
for that index space and leaves the on-disk document exactly as it was — the
error is produced before any save is attempted (the conclusion holds for
every `save_err`).  For `replace_paragraph`, `insert_paragraph_after`,
`insert_image_after_paragraph`, `insert_table_after_paragraph`,
`update_table_cell`, `delete_table`, `delete_table_row`, `delete_image` and
`replace_image` the invalid indices are the negatives and those `≥` the
element count; for `add_table_row` an explicit position is invalid only when
negative or strictly greater than the row count (`position = count` is the
valid append position). -/
theorem c2_invalid_index_rejected :
    (∀ (path nt fn : String) (d : Doc) (i : Int) (fs : ℚ) (b : Bool) (al : String)
        (ind : ℚ) (ls : Option ℚ) (env : Env), env.open_err = none →
      (i < 0 ∨ (d.paragraphs.length : Int) ≤ i) →
      replace_paragraph path (some d) i nt fn fs b al ind ls env =
        Res.err (invalidParaMsg i d.paragraphs.length) (some d))
    ∧ (∀ (path text fn : String) (d : Doc) (i : Int) (fs : ℚ) (b : Bool)
          (al : String) (ind : ℚ) (ls : Option ℚ) (env : Env), env.open_err = none →
        (i < 0 ∨ (d.paragraphs.length : Int) ≤ i) →
        insert_paragraph_after path (some d) i text fn fs b al ind ls env =
          Res.err (invalidParaMsg i d.paragraphs.length) (some d))
    ∧ (∀ (path : String) (d : Doc) (i : Int) (img : ImageFile) (w h : Option ℚ)
          (al : String) (env : Env), env.open_err = none →
        (i < 0 ∨ (d.paragraphs.length : Int) ≤ i) →
        insert_image_after_paragraph path (some d) i (some img) w h al env =
          Res.err (invalidParaMsg i d.paragraphs.length) (some d))
    ∧ (∀ (path : String) (d : Doc) (i : Int) (rows cols : Nat)
          (data : List (List String)) (hb : Bool) (sty : String) (env : Env),
        env.open_err = none →
        (i < 0 ∨ (d.paragraphs.length : Int) ≤ i) →
        insert_table_after_paragraph path (some d) i rows cols data hb sty env =
          Res.err (invalidParaMsg i d.paragraphs.length) (some d))
    ∧ (∀ (path : String) (d : Doc) (ti r c : Int) (nt : String)
          (fn : Option String) (fs : Option ℚ) (ib : Option Bool) (env : Env),
        env.open_err = none →
        (ti < 0 ∨ (d.tables.length : Int) ≤ ti) →
        update_table_cell path (some d) ti r c nt fn fs ib env =
          Res.err (invalidTableMsg ti d.tables.length) (some d))
    ∧ (∀ (path : String) (d : Doc) (ti r c : Int) (nt : String)
          (fn : Option String) (fs : Option ℚ) (ib : Option Bool) (env : Env),
        env.open_err = none → 0 ≤ ti → ti < (d.tables.length : Int) →
        (r < 0 ∨ ((tableAt d ti.toNat).rows.length : Int) ≤ r) →
        update_table_cell path (some d) ti r c nt fn fs ib env =
          Res.err (invalidRowMsg r (tableAt d ti.toNat).rows.length) (some d))
    ∧ (∀ (path : String) (d : Doc) (ti r c : Int) (nt : String)
          (fn : Option String) (fs : Option ℚ) (ib : Option Bool) (env : Env),
        env.open_err = none → 0 ≤ ti → ti < (d.tables.length : Int) →
        0 ≤ r → r < ((tableAt d ti.toNat).rows.length : Int) →
        (c < 0 ∨ ((tableAt d ti.toNat).grid_cols : Int) ≤ c) →
        update_table_cell path (some d) ti r c nt fn fs ib env =
          Res.err (invalidColMsg c (tableAt d ti.toNat).grid_cols) (some d))
    ∧ (∀ (path : String) (d : Doc) (ti : Int) (env : Env), env.open_err = none →
        (ti < 0 ∨ (d.tables.length : Int) ≤ ti) →
        delete_table path (some d) ti env =
          Res.err (invalidTableMsg ti d.tables.length) (some d))
    ∧ (∀ (path : String) (d : Doc) (ti ri : Int) (env : Env), env.open_err = none →
        (ti < 0 ∨ (d.tables.length : Int) ≤ ti) →
        delete_table_row path (some d) ti ri env =
          Res.err (invalidTableMsg ti d.tables.length) (some d))
    ∧ (∀ (path : String) (d : Doc) (ti ri : Int) (env : Env), env.open_err = none →
        0 ≤ ti → ti < (d.tables.length : Int) →
        (ri < 0 ∨ ((tableAt d ti.toNat).rows.length : Int) ≤ ri) →
        delete_table_row path (some d) ti ri env =
          Res.err (invalidRowMsg ri (tableAt d ti.toNat).rows.length) (some d))
    ∧ (∀ (path : String) (d : Doc) (ti : Int) (rd : List String) (pos : Option Int)
          (env : Env), env.open_err = none →
        (ti < 0 ∨ (d.tables.length : Int) ≤ ti) →
        add_table_row path (some d) ti rd pos env =
          Res.err (invalidTableMsg ti d.tables.length) (some d))
    ∧ (∀ (path : String) (d : Doc) (ti p : Int) (rd : List String) (env : Env),
        env.open_err = none → 0 ≤ ti → ti < (d.tables.length : Int) →
        (p < 0 ∨ ((tableAt d ti.toNat).rows.length : Int) < p) →
        add_table_row path (some d) ti rd (some p) env =
          Res.err (invalidPositionMsg p (tableAt d ti.toNat).rows.length) (some d))
    ∧ (∀ (path : String) (d : Doc) (i : Int) (env : Env), env.open_err = none →
        (i < 0 ∨ ((extract_images d true).length : Int) ≤ i) →
        delete_image path (some d) i env =
          Res.err (invalidImageMsg i (extract_images d true).length) (some d))
    ∧ (∀ (path : String) (d : Doc) (i : Int) (img : ImageFile) (w h : Option ℚ)
          (env : Env), env.open_err = none →
        (i < 0 ∨ ((extract_images d true).length : Int) ≤ i) →
        replace_image path (some d) i (some img) w h env =
          Res.err (invalidImageMsg i (extract_images d true).length) (some d)) := by
  refine ⟨?_, ?_, ?_, ?_, ?_, ?_, ?_, ?_, ?_, ?_, ?_, ?_, ?_, ?_⟩
  · intro path nt fn d i fs b al ind ls env hopen h
    simp only [replace_paragraph, replace_paragraph_body, requireDoc, hopen,
      catchAll]
    rw [if_pos h]
    rfl
  · intro path text fn d i fs b al ind ls env hopen h
    simp only [insert_paragraph_after, insert_paragraph_after_body, requireDoc,
      hopen, catchAll]
    rw [if_pos h]
    rfl
  · intro path d i img w h al env hopen hidx
    simp only [insert_image_after_paragraph, insert_image_after_paragraph_body,
      hopen, catchAll]
    rw [if_pos hidx]
    rfl
  · intro path d i rows cols data hb sty env hopen hidx
    simp only [insert_table_after_paragraph, insert_table_after_paragraph_body,
      requireDoc, hopen, catchAll]
    rw [if_pos hidx]
    rfl
  · intro path d ti r c nt fn fs ib env hopen h
    simp only [update_table_cell, update_table_cell_body, requireDoc, hopen,
      catchAll]
    rw [if_pos h]
    rfl
  · intro path d ti r c nt fn fs ib env hopen h1 h2 hr
    simp only [tableAt] at hr ⊢
    simp only [update_table_cell, update_table_cell_body, requireDoc, hopen,
      catchAll]
    rw [if_neg (by omega), if_pos hr]
    rfl
  · intro path d ti r c nt fn fs ib env hopen h1 h2 h3 h4 hc
    simp only [tableAt] at h4 hc ⊢
    simp only [update_table_cell, update_table_cell_body, requireDoc, hopen,
      catchAll]
    rw [if_neg (by omega), if_neg (by omega), if_pos hc]
    rfl
  · intro path d ti env hopen h
    simp only [delete_table, delete_table_body, requireDoc, hopen, catchAll]
    rw [if_pos h]
    rfl
  · intro path d ti ri env hopen h
    simp only [delete_table_row, delete_table_row_body, requireDoc, hopen,
      catchAll]
    rw [if_pos h]
    rfl
  · intro path d ti ri env hopen h1 h2 hr
    simp only [tableAt] at hr ⊢
    simp only [delete_table_row, delete_table_row_body, requireDoc, hopen,
      catchAll]
    rw [if_neg (by omega), if_pos hr]
    rfl
  · intro path d ti rd pos env hopen h
    simp only [add_table_row, add_table_row_body, requireDoc, hopen, catchAll]
    rw [if_pos h]
    rfl
  · intro path d ti p rd env hopen h1 h2 hp
    simp only [tableAt] at hp ⊢
    simp only [add_table_row, add_table_row_body, requireDoc, hopen, catchAll]
    rw [if_neg (by omega), if_pos hp]
    rfl
  · intro path d i env hopen h
    simp only [delete_image, delete_image_body, requireDoc, hopen, catchAll]
    rw [if_pos h]
    rfl
  · intro path d i img w h env hopen hidx
    simp only [replace_image, replace_image_body, hopen, catchAll]
    rw [if_pos hidx]
    rfl

/-- Witness for C2: on a concrete document with one paragraph, one 2-row
table and one image, index 5 is rejected by every operation with the
document unchanged, and position -1 is rejected by `add_table_row`. -/
theorem c2_invalid_index_rejected_witness :
    replace_paragraph "w.docx" (some oneImageDoc) 5 "t" "SimSun" 12 false "LEFT"
        0 none {} =
      Res.err (invalidParaMsg 5 oneImageDoc.paragraphs.length) (some oneImageDoc)
    ∧ delete_table "w.docx" (some twoRowDoc) 5 {} =
      Res.err (invalidTableMsg 5 twoRowDoc.tables.length) (some twoRowDoc)
    ∧ delete_table_row "w.docx" (some twoRowDoc) 0 5 {} =
      Res.err (invalidRowMsg 5 (tableAt twoRowDoc 0).rows.length) (some twoRowDoc)
    ∧ add_table_row "w.docx" (some twoRowDoc) 0 ["x"] (some (-1)) {} =
      Res.err (invalidPositionMsg (-1) (tableAt twoRowDoc 0).rows.length)
        (some twoRowDoc)
    ∧ delete_image "w.docx" (some oneImageDoc) 5 {} =
      Res.err (invalidImageMsg 5 (extract_images oneImageDoc true).length)
        (some oneImageDoc)
    ∧ update_table_cell "w.docx" (some twoRowDoc) 0 0 5 "t" none none none {} =
      Res.err (invalidColMsg 5 (tableAt twoRowDoc 0).grid_cols) (some twoRowDoc) := by
  refine ⟨?_, ?_, ?_, ?_, ?_, ?_⟩
  · exact (c2_invalid_index_rejected).1 "w.docx" "t" "SimSun" oneImageDoc 5 12
      false "LEFT" 0 none {} rfl (by decide)
  · exact (c2_invalid_index_rejected).2.2.2.2.2.2.2.1 "w.docx" twoRowDoc 5 {}
      rfl (by decide)
  · exact (c2_invalid_index_rejected).2.2.2.2.2.2.2.2.2.1 "w.docx" twoRowDoc 0 5
      {} rfl (by decide) (by decide) (by decide)
  · exact (c2_invalid_index_rejected).2.2.2.2.2.2.2.2.2.2.2.1 "w.docx" twoRowDoc
      0 (-1) ["x"] {} rfl (by decide) (by decide) (by decide)
  · exact (c2_invalid_index_rejected).2.2.2.2.2.2.2.2.2.2.2.2.1 "w.docx"
      oneImageDoc 5 {} rfl (by decide)
  · exact (c2_invalid_index_rejected).2.2.2.2.2.2.1 "w.docx" twoRowDoc 0 0 5 "t"
      none none none {} rfl (by decide) (by decide) (by decide) (by decide)
      (by decide)

/-! ## Lemma kit: the read_document_structure page loop -/

/-- The loop counter equals the entries collected on top of its start value. -/
theorem rdsLoop_count (ps : List Para) :
    ∀ (i : Nat) (st li : Int) (ie : Bool) (c : Nat),
      (rdsLoop ps i st li ie c).2 = c + (rdsLoop ps i st li ie c).1.length := by
  induction ps with
  | nil => intro i st li ie c; simp [rdsLoop]
  | cons p rest ih =>
    intro i st li ie c
    simp only [rdsLoop]
    split_ifs with h1 h2 h3
    · exact ih (i+1) st li ie c
    · exact ih (i+1) st li ie c
    · simp
    · simp only [List.length_cons, ih (i+1) st li ie (c+1)]
      omega

/-- With `include_empty` unset, no collected entry has blank stripped text. -/
theorem rdsLoop_nonblank (ps : List Para) :
    ∀ (i : Nat) (st li : Int) (c : Nat),
      ∀ e ∈ (rdsLoop ps i st li false c).1, pyStrip e.text ≠ "" := by
  induction ps with
  | nil => intro i st li c e he; simp [rdsLoop] at he
  | cons p rest ih =>
    intro i st li c e he
    simp only [rdsLoop] at he
    split_ifs at he with h1 h2 h3
    · exact ih (i+1) st li c e he
    · exact ih (i+1) st li c e he
    · simp at he
    · rcases List.mem_cons.mp he with rfl | hmem
      · simpa using h2
      · exact ih (i+1) st li (c+1) e hmem

/-- Every collected entry reports the index and text of an actual paragraph
of the walked list. -/
theorem rdsLoop_entries (ps : List Para) :
    ∀ (i : Nat) (st li : Int) (ie : Bool) (c : Nat),
      ∀ e ∈ (rdsLoop ps i st li ie c).1,
        i ≤ e.idx ∧ (ps.get? (e.idx - i)).map Para.text = some e.text := by
  induction ps with
  | nil => intro i st li ie c e he; simp [rdsLoop] at he
  | cons p rest ih =>
    intro i st li ie c e he
    simp only [rdsLoop] at he
    split_ifs at he with h1 h2 h3
    · obtain ⟨hle, hget⟩ := ih (i+1) st li ie c e he
      refine ⟨by omega, ?_⟩
      have : e.idx - i = (e.idx - (i+1)) + 1 := by omega
      rw [this, List.get?_cons_succ]
      exact hget
    · obtain ⟨hle, hget⟩ := ih (i+1) st li ie c e he
      refine ⟨by omega, ?_⟩
      have : e.idx - i = (e.idx - (i+1)) + 1 := by omega
      rw [this, List.get?_cons_succ]
      exact hget
    · simp at he
    · rcases List.mem_cons.mp he with rfl | hmem
      · simp
      · obtain ⟨hle, hget⟩ := ih (i+1) st li ie (c+1) e hmem
        refine ⟨by omega, ?_⟩
        have : e.idx - i = (e.idx - (i+1)) + 1 := by omega
        rw [this, List.get?_cons_succ]
        exact hget

/-- C3 (amended): `read_structure` skips blank paragraphs unless
`include_empty` is set (every returned entry is a real paragraph of the
document, and with `include_empty` unset a non-blank one), and `has_more` is
exactly `start_index + returned_count < total_paragraphs` — a positional
formula over raw paragraph indices, which can be true even when every
remaining paragraph is empty and no subsequent page would return anything. -/
theorem c3_read_structure_page (d : Doc) (st li : Int) (ie : Bool) :
    ((read_document_structure_core d st li ie).has_more
      = decide (st + ((read_document_structure_core d st li ie).returned_count : Int)
          < ((read_document_structure_core d st li ie).total_paragraphs : Int)))
    ∧ (ie = false →
        ∀ e ∈ (read_document_structure_core d st li ie).paragraphs,
          pyStrip e.text ≠ "")
    ∧ (∀ e ∈ (read_document_structure_core d st li ie).paragraphs,
        (d.paragraphs.get? e.idx).map Para.text = some e.text) := by
  refine ⟨?_, ?_, ?_⟩
  · simp only [read_document_structure_core, rdsLoop_count d.paragraphs 0 st li ie 0]
    simp
  · intro hie e he
    subst hie
    exact rdsLoop_nonblank d.paragraphs 0 st li 0 e he
  · intro e he
    have h := (rdsLoop_entries d.paragraphs 0 st li ie 0 e he).2
    simpa using h

/-- Witness for C3 at a concrete document and page. -/
theorem c3_read_structure_page_witness :
    ((read_document_structure_core mixedDoc 0 50 false).has_more
      = decide ((0 : Int) + ((read_document_structure_core mixedDoc 0 50 false).returned_count : Int)
          < ((read_document_structure_core mixedDoc 0 50 false).total_paragraphs : Int)))
    ∧ pyStrip (RDSEntry.mk 0 "a" "Normal").text ≠ "" := by
  refine ⟨(c3_read_structure_page mixedDoc 0 50 false).1, ?_⟩
  exact (c3_read_structure_page mixedDoc 0 50 false).2.1 rfl ⟨0, "a", "Normal"⟩
    (by decide)

/-! ## Lemma kit: search_and_replace structure preservation -/

/-- The table view of a block list (the list `doc.tables` filters). -/
def tablesOf (bs : List Block) : List Table :=
  bs.filterMap (fun b => match b with
    | .para _ => none
    | .table t => some t)

theorem tables_def (d : Doc) : d.tables = tablesOf d.blocks := rfl

/-- Every run of the document that `search_and_replace` visits: the runs of
the body paragraphs and the runs of every table-cell paragraph. -/
def docRuns (d : Doc) : List Run :=
  d.paragraphs.flatMap Para.runs
    ++ d.tables.flatMap (fun t => t.rows.flatMap (fun row =>
        row.flatMap (fun c => c.paragraphs.flatMap Para.runs)))

theorem sarRun_fst_fmt (mc : Bool) (s r : String) (x : Run) :
    ((sarRun mc s r x).1).fmt = x.fmt := by
  simp only [sarRun]
  split <;> rfl

theorem sarRun_fst_drawings (mc : Bool) (s r : String) (x : Run) :
    ((sarRun mc s r x).1).drawings = x.drawings := by
  simp only [sarRun]
  split <;> rfl

theorem sarRun_fst_text (mc : Bool) (s r : String) (x : Run) :
    ((sarRun mc s r x).1).text =
      (if strContains mc s x.text then strReplace mc s r x.text else x.text) := by
  simp only [sarRun]
  split <;> simp_all

theorem sarRuns_fst (mc : Bool) (s r : String) (rs : List Run) :
    (sarRuns mc s r rs).1 = rs.map (fun x => (sarRun mc s r x).1) := by
  induction rs with
  | nil => simp [sarRuns]
  | cons x rest ih => simp [sarRuns, ih]

theorem sarPara_fst (mc : Bool) (s r : String) (p : Para) :
    (sarPara mc s r p).1 = { p with runs := p.runs.map (fun x => (sarRun mc s r x).1) } := by
  simp [sarPara, sarRuns_fst]

theorem sarParas_fst (mc : Bool) (s r : String) (ps : List Para) :
    (sarParas mc s r ps).1 = ps.map (fun p => (sarPara mc s r p).1) := by
  induction ps with
  | nil => simp [sarParas]
  | cons p rest ih => simp [sarParas, ih]

theorem sarCell_fst (mc : Bool) (s r : String) (c : TableCell) :
    (sarCell mc s r c).1 = ⟨c.paragraphs.map (fun p => (sarPara mc s r p).1)⟩ := by
  simp [sarCell, sarParas_fst]

theorem sarCells_fst (mc : Bool) (s r : String) (cs : List TableCell) :
    (sarCells mc s r cs).1 = cs.map (fun c => (sarCell mc s r c).1) := by
  induction cs with
  | nil => simp [sarCells]
  | cons c rest ih => simp [sarCells, ih]

theorem sarRows_fst (mc : Bool) (s r : String) (rows : List (List TableCell)) :
    (sarRows mc s r rows).1 = rows.map (fun row => (sarCells mc s r row).1) := by
  induction rows with
  | nil => simp [sarRows]
  | cons row rest ih => simp [sarRows, ih]

theorem sarTable_fst (mc : Bool) (s r : String) (t : Table) :
    (sarTable mc s r t).1 =
      { t with rows := t.rows.map (fun row => row.map (fun c => (sarCell mc s r c).1)) } := by
  simp [sarTable, sarRows_fst, sarCells_fst]

theorem sarBlocks_fst (mc : Bool) (s r : String) (bs : List Block) :
    (sarBlocks mc s r bs).1 = bs.map (fun b => (sarBlock mc s r b).1) := by
  induction bs with
  | nil => simp [sarBlocks]
  | cons b rest ih => simp [sarBlocks, ih]

theorem tablesOf_cons_para (q : Para) (rest : List Block) :
    tablesOf (.para q :: rest) = tablesOf rest := by
  simp [tablesOf]

theorem tablesOf_cons_table (t : Table) (rest : List Block) :
    tablesOf (.table t :: rest) = t :: tablesOf rest := by
  simp [tablesOf]

theorem parasOf_map_sarBlock (mc : Bool) (s r : String) (bs : List Block) :
    parasOf (bs.map (fun b => (sarBlock mc s r b).1)) =
      (parasOf bs).map (fun p => (sarPara mc s r p).1) := by
  induction bs with
  | nil => simp [parasOf]
  | cons b rest ih =>
    cases b with
    | para p =>
      have hb : (sarBlock mc s r (Block.para p)).1 = Block.para ((sarPara mc s r p).1) := rfl
      rw [List.map_cons, hb, parasOf_cons_para, parasOf_cons_para, List.map_cons, ih]
    | table t =>
      have hb : (sarBlock mc s r (Block.table t)).1 = Block.table ((sarTable mc s r t).1) := rfl
      rw [List.map_cons, hb, parasOf_cons_table, parasOf_cons_table, ih]

theorem tablesOf_map_sarBlock (mc : Bool) (s r : String) (bs : List Block) :
    tablesOf (bs.map (fun b => (sarBlock mc s r b).1)) =
      (tablesOf bs).map (fun t => (sarTable mc s r t).1) := by
  induction bs with
  | nil => simp [tablesOf]
  | cons b rest ih =>
    cases b with
    | para p =>
      have hb : (sarBlock mc s r (Block.para p)).1 = Block.para ((sarPara mc s r p).1) := rfl
      rw [List.map_cons, hb, tablesOf_cons_para, tablesOf_cons_para, ih]
    | table t =>
      have hb : (sarBlock mc s r (Block.table t)).1 = Block.table ((sarTable mc s r t).1) := rfl
      rw [List.map_cons, hb, tablesOf_cons_table, tablesOf_cons_table, List.map_cons, ih]

theorem sarRun_id (mc : Bool) (s r : String) (x : Run)
    (h : strContains mc s x.text = false) : sarRun mc s r x = (x, 0) := by
  simp [sarRun, h]

theorem sarRuns_id (mc : Bool) (s r : String) (rs : List Run)
    (h : ∀ x ∈ rs, strContains mc s x.text = false) : sarRuns mc s r rs = (rs, 0) := by
  induction rs with
  | nil => simp [sarRuns]
  | cons x rest ih =>
    simp only [sarRuns, sarRun_id mc s r x (h x (by simp)),
      ih (fun y hy => h y (by simp [hy]))]

theorem sarPara_id (mc : Bool) (s r : String) (p : Para)
    (h : ∀ x ∈ p.runs, strContains mc s x.text = false) : sarPara mc s r p = (p, 0) := by
  simp [sarPara, sarRuns_id mc s r p.runs h]

theorem sarParas_id (mc : Bool) (s r : String) (ps : List Para)
    (h : ∀ p ∈ ps, ∀ x ∈ p.runs, strContains mc s x.text = false) :
    sarParas mc s r ps = (ps, 0) := by
  induction ps with
  | nil => simp [sarParas]
  | cons p rest ih =>
    simp only [sarParas, sarPara_id mc s r p (h p (by simp)),
      ih (fun q hq => h q (by simp [hq]))]

theorem sarCell_id (mc : Bool) (s r : String) (c : TableCell)
    (h : ∀ p ∈ c.paragraphs, ∀ x ∈ p.runs, strContains mc s x.text = false) :
    sarCell mc s r c = (c, 0) := by
  simp [sarCell, sarParas_id mc s r c.paragraphs h]

theorem sarCells_id (mc : Bool) (s r : String) (cs : List TableCell)
    (h : ∀ c ∈ cs, ∀ p ∈ c.paragraphs, ∀ x ∈ p.runs, strContains mc s x.text = false) :
    sarCells mc s r cs = (cs, 0) := by
  induction cs with
  | nil => simp [sarCells]
  | cons c rest ih =>
    simp only [sarCells, sarCell_id mc s r c (h c (by simp)),
      ih (fun y hy => h y (by simp [hy]))]

theorem sarRows_id (mc : Bool) (s r : String) (rows : List (List TableCell))
    (h : ∀ row ∈ rows, ∀ c ∈ row, ∀ p ∈ c.paragraphs, ∀ x ∈ p.runs,
      strContains mc s x.text = false) :
    sarRows mc s r rows = (rows, 0) := by
  induction rows with
  | nil => simp [sarRows]
  | cons row rest ih =>
    simp only [sarRows, sarCells_id mc s r row (h row (by simp)),
      ih (fun y hy => h y (by simp [hy]))]

theorem sarTable_id (mc : Bool) (s r : String) (t : Table)
    (h : ∀ row ∈ t.rows, ∀ c ∈ row, ∀ p ∈ c.paragraphs, ∀ x ∈ p.runs,
      strContains mc s x.text = false) :
    sarTable mc s r t = (t, 0) := by
  simp [sarTable, sarRows_id mc s r t.rows h]

theorem mem_parasOf (bs : List Block) (p : Para) :
    p ∈ parasOf bs ↔ Block.para p ∈ bs := by
  induction bs with
  | nil => simp [parasOf]
  | cons b rest ih =>
    cases b with
    | para q => simp [parasOf_cons_para, ih]
    | table t => simp [parasOf_cons_table, ih]

theorem mem_tablesOf (bs : List Block) (t : Table) :
    t ∈ tablesOf bs ↔ Block.table t ∈ bs := by
  induction bs with
  | nil => simp [tablesOf]
  | cons b rest ih =>
    cases b with
    | para q => rw [tablesOf_cons_para]; simp [ih]
    | table u => rw [tablesOf_cons_table]; simp [ih]

theorem sarBlocks_id_list (mc : Bool) (s r : String) (bs : List Block)
    (hp : ∀ p ∈ parasOf bs, ∀ x ∈ p.runs, strContains mc s x.text = false)
    (ht : ∀ t ∈ tablesOf bs, ∀ row ∈ t.rows, ∀ c ∈ row, ∀ p ∈ c.paragraphs,
      ∀ x ∈ p.runs, strContains mc s x.text = false) :
    sarBlocks mc s r bs = (bs, 0) := by
  induction bs with
  | nil => simp [sarBlocks]
  | cons b rest ih =>
    cases b with
    | para p =>
      have h1 : sarPara mc s r p = (p, 0) :=
        sarPara_id _ _ _ _ (hp p (by rw [parasOf_cons_para]; simp))
      have h2 : sarBlocks mc s r rest = (rest, 0) :=
        ih (fun q hq => hp q (by rw [parasOf_cons_para]; simp [hq]))
           (fun u hu => ht u (by rw [tablesOf_cons_para]; exact hu))
      simp [sarBlocks, sarBlock, h1, h2]
    | table t =>
      have h1 : sarTable mc s r t = (t, 0) :=
        sarTable_id _ _ _ _ (ht t (by rw [tablesOf_cons_table]; simp))
      have h2 : sarBlocks mc s r rest = (rest, 0) :=
        ih (fun q hq => hp q (by rw [parasOf_cons_table]; exact hq))
           (fun u hu => ht u (by rw [tablesOf_cons_table]; simp [hu]))
      simp [sarBlocks, sarBlock, h1, h2]

/-- When no single run contains the search text, the whole walk leaves the
document unchanged and counts nothing. -/
theorem sarBlocks_id (mc : Bool) (s r : String) (d : Doc)
    (h : ∀ x ∈ docRuns d, strContains mc s x.text = false) :
    sarBlocks mc s r d.blocks = (d.blocks, 0) := by
  refine sarBlocks_id_list mc s r d.blocks ?_ ?_
  · intro p hp x hx
    refine h x ?_
    simp only [docRuns, List.mem_append, List.mem_flatMap]
    exact Or.inl ⟨p, hp, hx⟩
  · intro t htm row hrow c hc p hpp x hx
    refine h x ?_
    simp only [docRuns, List.mem_append, List.mem_flatMap]
    exact Or.inr ⟨t, htm, row, hrow, c, hc, p, hpp, hx⟩

/-- A paragraph whose text "Hello" is split across two runs. -/
def splitRunDoc : Doc :=
  { blocks := [.para { runs := [{ text := "Hel" }, { text := "lo" }] }] }

/-- C6: `search_and_replace` rewrites each run's text in place — the block
structure, the per-paragraph run count, and every run's formatting and
drawings are preserved, the new text of a run being its old text with the
in-run occurrences replaced (runs without an in-run occurrence are
untouched), in body paragraphs and table cells alike.  Consequently, when no
single run's text contains the search text — in particular when an occurrence
spans a run boundary — nothing is found: the document is unchanged and the
count is 0. -/
theorem c6_search_replace_frame (d : Doc) (search rep : String) (mc : Bool) :
    ((search_and_replace_core d search rep mc).1.paragraphs
      = d.paragraphs.map (fun p => (sarPara mc search rep p).1))
    ∧ ((search_and_replace_core d search rep mc).1.tables
      = d.tables.map (fun t => (sarTable mc search rep t).1))
    ∧ (∀ p : Para, (sarPara mc search rep p).1.runs
        = p.runs.map (fun x => (sarRun mc search rep x).1))
    ∧ (∀ p : Para, (sarPara mc search rep p).1.runs.length = p.runs.length)
    ∧ (∀ t : Table, (sarTable mc search rep t).1.rows
        = t.rows.map (fun row => row.map (fun c => (sarCell mc search rep c).1)))
    ∧ (∀ c : TableCell, (sarCell mc search rep c).1.paragraphs
        = c.paragraphs.map (fun p => (sarPara mc search rep p).1))
    ∧ (∀ x : Run,
        (sarRun mc search rep x).1.fmt = x.fmt
        ∧ (sarRun mc search rep x).1.drawings = x.drawings
        ∧ (sarRun mc search rep x).1.text =
            (if strContains mc search x.text then strReplace mc search rep x.text
             else x.text))
    ∧ ((∀ x ∈ docRuns d, strContains mc search x.text = false) →
        search_and_replace_core d search rep mc = (d, 0)) := by
  refine ⟨?_, ?_, ?_, ?_, ?_, ?_, ?_, ?_⟩
  · show parasOf (sarBlocks mc search rep d.blocks).1 = _
    rw [sarBlocks_fst, parasOf_map_sarBlock]
    rfl
  · show tablesOf (sarBlocks mc search rep d.blocks).1 = _
    rw [sarBlocks_fst, tablesOf_map_sarBlock]
    rfl
  · intro p
    rw [sarPara_fst]
  · intro p
    rw [sarPara_fst]
    simp
  · intro t
    rw [sarTable_fst]
  · intro c
    rw [sarCell_fst]
  · intro x
    exact ⟨sarRun_fst_fmt mc search rep x, sarRun_fst_drawings mc search rep x,
      sarRun_fst_text mc search rep x⟩
  · intro h
    simp only [search_and_replace_core, sarBlocks_id mc search rep d h]

/-- Witness for C6: "Hello" split across the runs "Hel" and "lo" is not
found — the document is unchanged and the count is 0. -/
theorem c6_search_replace_frame_witness :
    search_and_replace_core splitRunDoc "Hello" "X" true = (splitRunDoc, 0) :=
  (c6_search_replace_frame splitRunDoc "Hello" "X" true).2.2.2.2.2.2.2
    (by decide)

/-! ## Lemma kit: table creation -/

theorem getD_replicate {α : Type} (k n : Nat) (a def0 : α) (h : n < k) :
    (List.replicate k a).getD n def0 = a := by
  induction k generalizing n with
  | zero => omega
  | succ m ih =>
    cases n with
    | zero => simp [List.replicate]
    | succ j => simpa [List.replicate] using ih j (by omega)

theorem fillRow_length (b : Bool) (cells : List TableCell) (ds : List String) :
    (fillRow b cells ds).length = cells.length := by
  induction cells generalizing ds with
  | nil => cases ds <;> simp [fillRow]
  | cons x cs ih =>
    cases ds with
    | nil => simp [fillRow]
    | cons s ss => simp [fillRow, ih]

theorem fillRow_getD (b : Bool) (cells : List TableCell) (ds : List String)
    (c : Nat) (hc : c < cells.length) :
    (fillRow b cells ds).getD c blankCell =
      if c < ds.length then setCellText b (ds.getD c "") else cells.getD c blankCell := by
  induction cells generalizing ds c with
  | nil => simp at hc
  | cons x cs ih =>
    cases ds with
    | nil => simp [fillRow]
    | cons s ss =>
      cases c with
      | zero => simp [fillRow]
      | succ j =>
        have := ih ss j (by simpa using hc)
        simpa [fillRow] using this

theorem fillGrid_length (hb : Bool) (g : List (List TableCell))
    (data : List (List String)) : (fillGrid hb g data).length = g.length := by
  induction g generalizing data hb with
  | nil => cases data <;> simp [fillGrid]
  | cons row rest ih =>
    cases data with
    | nil => simp [fillGrid]
    | cons d0 ds => simp [fillGrid, ih]

theorem fillGrid_getD (hb : Bool) (g : List (List TableCell))
    (data : List (List String)) (r : Nat) (hr : r < g.length) :
    (fillGrid hb g data).getD r [] =
      if r < data.length then fillRow (hb && (r == 0)) (g.getD r []) (data.getD r [])
      else g.getD r [] := by
  induction g generalizing data r hb with
  | nil => simp at hr
  | cons row rest ih =>
    cases data with
    | nil => simp [fillGrid]
    | cons d0 ds =>
      cases r with
      | zero => simp [fillGrid]
      | succ j =>
        have := ih false ds j (by simpa using hr)
        simpa [fillGrid] using this

theorem blankGrid_getD (rows cols r : Nat) (hr : r < rows) :
    (blankGrid rows cols).getD r [] = List.replicate cols blankCell := by
  simp only [blankGrid]
  exact getD_replicate rows r _ _ hr

theorem cellText_setCellText (b : Bool) (s : String) :
    TableCell.text (setCellText b s) = s := rfl

theorem cellText_blankCell : TableCell.text blankCell = "" := rfl

/-- The 3x3 example grid of the spec. -/
def c8Data : List (List String) := [["h1", "h2", "h3"], ["a", "b", "c"], ["d", "e", "f"]]

/-- The document `create_table_with_data(rows=3, cols=3, data=c8Data)` leaves
on disk when starting from the empty document. -/
def c8Doc : Doc := { blocks := [.table (create_table_core 3 3 c8Data true)] }

/-- C8: `create_table` with the 3x3 example grid followed by `read_tables(0)`
returns exactly that grid; in general the built table has the requested
dimensions, cell (r,c) holds the row-major input datum when the input grid
covers it and is blank otherwise (excess input rows/columns are ignored,
excess requested cells stay blank), and with `header_bold` every run in
row 0 is bold. -/
theorem c8_create_table_grid :
    (create_table_with_data "t.docx" (some newDocument) 3 3 c8Data true {} =
        Res.ok "Successfully created table." (some c8Doc))
    ∧ read_tables_core c8Doc (some 0) =
        [{ table_index := 0, rows := 3, cols := 3, data := c8Data }]
    ∧ (∀ (rows cols : Nat) (data : List (List String)) (hb : Bool),
        (create_table_core rows cols data hb).rows.length = rows
        ∧ (create_table_core rows cols data hb).grid_cols = cols
        ∧ (∀ r, r < rows →
            ((create_table_core rows cols data hb).rows.getD r []).length = cols)
        ∧ (∀ r c, r < rows → c < cols →
            TableCell.text (((create_table_core rows cols data hb).rows.getD r []).getD c blankCell)
              = if r < data.length then
                  (if c < (data.getD r []).length then (data.getD r []).getD c "" else "")
                else "")
        ∧ (hb = true → 0 < rows → ∀ c, c < cols →
            ∀ p ∈ (((create_table_core rows cols data hb).rows.getD 0 []).getD c blankCell).paragraphs,
              ∀ x ∈ p.runs, x.fmt.bold = some true)) := by
  refine ⟨by decide, by decide, ?_⟩
  intro rows cols data hb
  have hglen : (blankGrid rows cols).length = rows := by simp [blankGrid]
  refine ⟨?_, rfl, ?_, ?_, ?_⟩
  · rw [show (create_table_core rows cols data hb).rows
        = fillGrid hb (blankGrid rows cols) data from rfl]
    rw [fillGrid_length, hglen]
  · intro r hr
    rw [show (create_table_core rows cols data hb).rows
        = fillGrid hb (blankGrid rows cols) data from rfl]
    rw [fillGrid_getD hb (blankGrid rows cols) data r (by omega)]
    rw [blankGrid_getD rows cols r hr]
    by_cases h1 : r < data.length
    · rw [if_pos h1, fillRow_length, List.length_replicate]
    · rw [if_neg h1, List.length_replicate]
  · intro r c hr hc
    rw [show (create_table_core rows cols data hb).rows
        = fillGrid hb (blankGrid rows cols) data from rfl]
    rw [fillGrid_getD hb (blankGrid rows cols) data r (by omega)]
    rw [blankGrid_getD rows cols r hr]
    by_cases h1 : r < data.length
    · rw [if_pos h1, if_pos h1]
      rw [fillRow_getD _ _ _ c (by rw [List.length_replicate]; exact hc)]
      by_cases h2 : c < (data.getD r []).length
      · rw [if_pos h2, if_pos h2, cellText_setCellText]
      · rw [if_neg h2, if_neg h2, getD_replicate cols c _ _ hc, cellText_blankCell]
    · rw [if_neg h1, if_neg h1, getD_replicate cols c _ _ hc, cellText_blankCell]
  · intro hhb hrows c hc p hp x hx
    subst hhb
    rw [show (create_table_core rows cols data true).rows
        = fillGrid true (blankGrid rows cols) data from rfl] at hp
    rw [fillGrid_getD true (blankGrid rows cols) data 0 (by omega)] at hp
    rw [blankGrid_getD rows cols 0 hrows] at hp
    by_cases h1 : 0 < data.length
    · rw [if_pos h1] at hp
      rw [fillRow_getD _ _ _ c (by rw [List.length_replicate]; exact hc)] at hp
      by_cases h2 : c < (data.getD 0 []).length
      · rw [if_pos h2] at hp
        simp only [setCellText, List.mem_singleton] at hp
        subst hp
        simp only [List.mem_singleton] at hx
        subst hx
        simp
      · rw [if_neg h2, getD_replicate cols c _ _ hc] at hp
        simp only [blankCell, List.mem_singleton] at hp
        subst hp
        simp at hx
    · rw [if_neg h1, getD_replicate cols c _ _ hc] at hp
      simp only [blankCell, List.mem_singleton] at hp
      subst hp
      simp at hx

/-- Witness for C8's general part at the example dimensions, plus a blank
excess cell: a 2x2 request over a 1x1 input grid leaves cell (1,1) blank. -/
theorem c8_create_table_grid_witness :
    TableCell.text (((create_table_core 2 2 [["z"]] true).rows.getD 1 []).getD 1 blankCell) = ""
    ∧ (create_table_core 2 2 [["z"]] true).rows.length = 2 := by
  constructor
  · have h := (c8_create_table_grid.2.2 2 2 [["z"]] true).2.2.2.1 1 1
      (by decide) (by decide)
    simpa using h
  · exact (c8_create_table_grid.2.2 2 2 [["z"]] true).1
